import Mathlib

/-!
Verification of the pose-analysis core of a cycling/running form-analysis
application.  The development shallowly embeds the pipeline modules:

* the angle geometry primitive (`calculateAngle`, from `poseDetection.ts`),
* the heuristic sport classifier (`classifySport`, from `sportDetection.js`),
* the bike-fit and running-form analyzers (`analyzeBikeFit` from
  `poseDetection.ts`, `analyzeRunningForm` from `runningAnalysis.js`),
* the frame aggregation helpers (`combineAnalyses` from `analysisHelpers.ts`,
  `calculateDetailedMetrics` / `calculateAsymmetry` from the detailed-metrics
  module),
* the severity / recommendation enhancer (`calculateSeverity`,
  `enhanceBikeFitRecommendations`, `enhanceRunningRecommendations`, from the
  enhanced-recommendations module).

JavaScript numbers are modelled by `ℚ` where the code only performs field
operations and comparisons, and by `ℝ` where trigonometry is involved
(`Math.atan2` is modelled by `Complex.arg`).  `Math.round` (round half toward
positive infinity) coincides with Mathlib's `round`.  JS objects used as
string-keyed dictionaries are modelled by association lists together with the
lookup function `alookup` below (`none` models an absent property).
-/

/-- Lookup in an association list with string keys, mirroring JS property
access `obj[key]` (`none` models `undefined`). -/
def alookup {β : Type _} : List (String × β) → String → Option β
  | [], _ => none
  | (k, v) :: rest, key => if k = key then some v else alookup rest key

namespace Enhance

/-- The severity names from the `SEVERITY` constant of the
enhanced-recommendations module. -/
def SEVERITY_CRITICAL : String := "critical"

def SEVERITY_MODERATE : String := "moderate"

def SEVERITY_MINOR : String := "minor"

/-- `calculateSeverity(value, optimalMin, optimalMax, criticalThreshold = 20,
moderateThreshold = 10)`: a value inside the optimal range is `minor`;
outside, the deviation percentage relative to the range width selects
`critical` / `moderate` / `minor`. -/
def calculateSeverity (value optimalMin optimalMax : ℚ)
    (criticalThreshold : ℚ := 20) (moderateThreshold : ℚ := 10) : String :=
  let optimalRange := optimalMax - optimalMin
  if optimalMin ≤ value ∧ value ≤ optimalMax then
    SEVERITY_MINOR
  else
    let deviation :=
      if value < optimalMin then (optimalMin - value) / optimalRange * 100
      else (value - optimalMax) / optimalRange * 100
    if criticalThreshold ≤ deviation then SEVERITY_CRITICAL
    else if moderateThreshold ≤ deviation then SEVERITY_MODERATE
    else SEVERITY_MINOR

/-- The `EXERCISES` drill database, keyed by exercise key. -/
def EXERCISES : List (String × List String) :=
  [("kneeTooLow",
    ["Raise saddle height by 5-10mm increments",
     "Single-leg pedaling drills to test range of motion",
     "Check cleat position - may need to move back"]),
   ("kneeTooHigh",
    ["Lower saddle height by 5-10mm increments",
     "Test with heel on pedal - leg should be straight",
     "Foam roll quads and hip flexors before adjustments"]),
   ("hipTooOpen",
    ["Move saddle forward 5-10mm",
     "Lower handlebars if flexibility allows",
     "Core strengthening exercises (planks, bridges)"]),
   ("hipTooCompressed",
    ["Raise handlebars or add spacers",
     "Move saddle back 5-10mm",
     "Hip flexor stretches (couch stretch, pigeon pose)",
     "Work on hip mobility exercises"]),
   ("elbowTooStraight",
    ["Shorten stem length",
     "Raise handlebars with spacers",
     "Practice bending elbows consciously during rides"]),
   ("elbowTooBent",
    ["Increase reach with longer stem",
     "Lower handlebars if comfortable",
     "Upper body strength training"]),
   ("backTooUpright",
    ["Lower handlebars gradually",
     "Work on core strength and stability",
     "Thoracic spine mobility exercises",
     "Hamstring stretches"]),
   ("backTooAggressive",
    ["Raise handlebars with spacers",
     "Shorter stem for more upright position",
     "Lower back strengthening exercises",
     "Cat-cow stretches for spine mobility"]),
   ("leaningBack",
    ["Falling forward drill: Lean from ankles not waist",
     "Wall lean drill: Practice proper forward lean",
     "Core engagement exercises during runs",
     "Focus on landing with foot under hips"]),
   ("leaningTooFar",
    ["Posture reset: Imagine string pulling from crown",
     "Core stability work (planks, dead bugs)",
     "Run with lighter, quicker cadence"]),
   ("kneeLiftLow",
    ["High knee drills (30 seconds × 3 sets)",
     "A-skip and B-skip drills",
     "Butt kicks for hip flexor activation",
     "Hill repeats to increase knee drive"]),
   ("kneeLiftHigh",
    ["Focus on quick ground contact, not height",
     "Cadence drills at 180 steps/minute",
     "Stride length reduction exercises"]),
   ("hipExtensionLimited",
    ["Hip flexor stretches (couch stretch, lunge holds)",
     "Glute activation (clamshells, bridges)",
     "Leg swings front-to-back before runs",
     "Backward running drills"]),
   ("armSwingPoor",
    ["Arm swing drill: 90° elbow, forward/back motion",
     "Practice while seated to isolate arms",
     "Shoulder mobility exercises",
     "Relax shoulders - avoid tension"])]

/-- `getSeverityScore`: numeric priority of a severity name. -/
def getSeverityScore (severity : String) : ℤ :=
  if severity = SEVERITY_CRITICAL then 3
  else if severity = SEVERITY_MODERATE then 2
  else if severity = SEVERITY_MINOR then 1
  else 0

end Enhance

/-- A raw recommendation as pushed by the analyzers:
`{type, area, message, angle}`.  The `angle` property is absent (`none`) for
the foot-strike recommendations of the running analyzer. -/
structure Recommendation where
  type : String
  area : String
  message : String
  angle : Option ℚ
  deriving DecidableEq

/-- A recommendation after the enhancement stage:
`{...rec, severity, impact, drills, priorityScore}`. -/
structure EnhancedRecommendation where
  type : String
  area : String
  message : String
  angle : Option ℚ
  severity : String
  impact : String
  drills : List String
  priorityScore : ℤ
  deriving DecidableEq

/-- The part of an analysis object that the enhancers inspect.  The outer
`Option` models a `null`/`undefined` argument, and the inner `Option` models
an object with no `recommendations` property. -/
structure EnhancerInput where
  recommendations : Option (List Recommendation)

namespace Enhance

/-- JS comparison `rec.angle < b` where the `angle` property may be absent:
comparing `undefined` yields `false` (`NaN` comparison). -/
def angLt (a : Option ℚ) (b : ℚ) : Bool :=
  match a with
  | some x => decide (x < b)
  | none => false

/-- JS comparison `rec.angle > b` where the `angle` property may be absent. -/
def angGt (a : Option ℚ) (b : ℚ) : Bool :=
  match a with
  | some x => decide (b < x)
  | none => false

/-- `calculateSeverity` applied to a possibly absent angle: with an
`undefined` angle every comparison inside `calculateSeverity` is a `NaN`
comparison and fails, so the result is `minor`. -/
def calculateSeverityOpt (a : Option ℚ) (optimalMin optimalMax cp mp : ℚ) : String :=
  match a with
  | some x => calculateSeverity x optimalMin optimalMax cp mp
  | none => SEVERITY_MINOR

/-- The per-recommendation body of the `map` inside
`enhanceBikeFitRecommendations`.  The source uses four independent `if`
blocks on `rec.area`; the area strings are pairwise distinct so the blocks
are equivalent to this `if`/`else` chain.  The triple is
(severity, exerciseKey, impact). -/
def enhanceBikeFitRec (rec : Recommendation) : EnhancedRecommendation :=
  let s : String × Option String × String :=
    if rec.area = "Knee Angle" then
      let severity := calculateSeverityOpt rec.angle 140 160 25 15
      if angLt rec.angle 140 then
        (severity, some "kneeTooLow",
         if severity = SEVERITY_CRITICAL then "High risk of knee pain and reduced power output"
         else "May cause discomfort on longer rides")
      else if angGt rec.angle 160 then
        (severity, some "kneeTooHigh",
         if severity = SEVERITY_CRITICAL then "Risk of hamstring strain and inefficient pedaling"
         else "Slight inefficiency in power transfer")
      else (severity, none, "")
    else if rec.area = "Hip Angle" then
      let severity := calculateSeverityOpt rec.angle 40 70 30 20
      if angGt rec.angle 70 then
        (severity, some "hipTooOpen",
         if severity = SEVERITY_CRITICAL then "Reduced aerodynamics and power generation"
         else "Minor reduction in efficiency")
      else if angLt rec.angle 40 then
        (severity, some "hipTooCompressed",
         if severity = SEVERITY_CRITICAL then "Breathing restriction and back pain risk"
         else "May limit comfort on long rides")
      else (severity, none, "")
    else if rec.area = "Elbow Angle" then
      let severity := calculateSeverityOpt rec.angle 140 170 25 15
      if angGt rec.angle 170 then
        (severity, some "elbowTooStraight",
         if severity = SEVERITY_CRITICAL then "Risk of shoulder/neck pain and reduced control"
         else "Minor strain on upper body")
      else if angLt rec.angle 140 then
        (severity, some "elbowTooBent",
         if severity = SEVERITY_CRITICAL then "Excessive weight on arms, fatigue risk"
         else "Slight reduction in comfort")
      else (severity, none, "")
    else if rec.area = "Back Angle" then
      let severity := calculateSeverityOpt rec.angle 35 50 30 20
      if angGt rec.angle 50 then
        (severity, some "backTooUpright",
         if severity = SEVERITY_CRITICAL then "Significant aerodynamic drag"
         else "Slight efficiency loss")
      else if angLt rec.angle 35 then
        (severity, some "backTooAggressive",
         if severity = SEVERITY_CRITICAL then "Back pain risk and breathing limitations"
         else "May cause discomfort over time")
      else (severity, none, "")
    else (SEVERITY_MINOR, none, "")
  let drills : List String :=
    match s.2.1 with
    | some key => (alookup EXERCISES key).getD []
    | none => []
  { type := rec.type, area := rec.area, message := rec.message, angle := rec.angle,
    severity := s.1, impact := s.2.2, drills := drills,
    priorityScore := getSeverityScore s.1 }

/-- The per-recommendation body of the `map` inside
`enhanceRunningRecommendations`. -/
def enhanceRunningRec (rec : Recommendation) : EnhancedRecommendation :=
  let s : String × Option String × String :=
    if rec.area = "Body Lean" then
      let severity := calculateSeverityOpt rec.angle 5 12 40 25
      if angLt rec.angle 5 then
        (severity, some "leaningBack",
         if severity = SEVERITY_CRITICAL then "Heel striking and braking forces increase injury risk"
         else "Reduced running efficiency")
      else if angGt rec.angle 12 then
        (severity, some "leaningTooFar",
         if severity = SEVERITY_CRITICAL then "Risk of quad strain and forward momentum loss"
         else "Slight balance issues")
      else (severity, none, "")
    else if rec.area = "Knee Lift" then
      let severity := calculateSeverityOpt rec.angle 100 140 30 20
      if angLt rec.angle 100 then
        (severity, some "kneeLiftLow",
         if severity = SEVERITY_CRITICAL then "Shuffling gait increases injury risk, reduces speed"
         else "Minor stride length reduction")
      else if angGt rec.angle 140 then
        (severity, some "kneeLiftHigh",
         if severity = SEVERITY_CRITICAL then "Wasted energy, increased ground contact time"
         else "Slight efficiency loss")
      else (severity, none, "")
    else if rec.area = "Hip Extension" then
      let severity := calculateSeverityOpt rec.angle 160 180 15 10
      if angLt rec.angle 160 then
        (severity, some "hipExtensionLimited",
         if severity = SEVERITY_CRITICAL then "Reduced power output, compensatory strain on quads/knees"
         else "Mild power loss")
      else (severity, none, "")
    else if rec.area = "Arm Swing" then
      let severity := calculateSeverityOpt rec.angle 80 110 30 20
      if angLt rec.angle 80 || angGt rec.angle 110 then
        (severity, some "armSwingPoor",
         if severity = SEVERITY_CRITICAL then "Energy waste and rotational imbalance"
         else "Minor balance issues")
      else (severity, none, "")
    else (SEVERITY_MINOR, none, "")
  let drills : List String :=
    match s.2.1 with
    | some key => (alookup EXERCISES key).getD []
    | none => []
  { type := rec.type, area := rec.area, message := rec.message, angle := rec.angle,
    severity := s.1, impact := s.2.2, drills := drills,
    priorityScore := getSeverityScore s.1 }

/-- The descending-priority comparator of the final
`enhanced.sort((a, b) => b.priorityScore - a.priorityScore)`. -/
def byPriorityDesc (a b : EnhancedRecommendation) : Bool :=
  decide (b.priorityScore ≤ a.priorityScore)

/-- `enhanceBikeFitRecommendations(analysis)`: `[]` for a `null` analysis or
one without recommendations; otherwise each recommendation is enhanced and
the result sorted by descending priority score. -/
def enhanceBikeFitRecommendations (analysis : Option EnhancerInput) :
    List EnhancedRecommendation :=
  match analysis with
  | none => []
  | some a =>
    match a.recommendations with
    | none => []
    | some recs => (recs.map enhanceBikeFitRec).mergeSort byPriorityDesc

/-- `enhanceRunningRecommendations(analysis)`: `[]` for a `null` analysis or
one without recommendations; otherwise each recommendation is enhanced and
the result sorted by descending priority score. -/
def enhanceRunningRecommendations (analysis : Option EnhancerInput) :
    List EnhancedRecommendation :=
  match analysis with
  | none => []
  | some a =>
    match a.recommendations with
    | none => []
    | some recs => (recs.map enhanceRunningRec).mergeSort byPriorityDesc

end Enhance

namespace SportDetection

/-- A pose keypoint as consumed by `sportDetection.js`. -/
structure Keypoint where
  name : String
  x : ℚ
  y : ℚ
  score : ℚ
  deriving DecidableEq

/-- A pose estimate: keypoints plus whole-pose confidence. -/
structure Pose where
  keypoints : List Keypoint
  score : ℚ
  deriving DecidableEq

/-- `pose.keypoints.find(kp => kp.name === name)`. -/
def getKeypoint (pose : Pose) (name : String) : Option Keypoint :=
  pose.keypoints.find? (fun kp => kp.name == name)

/-- `classifySport(pose)` from `sportDetection.js`: gate on hip/knee
keypoints, heuristic cycling/running scores, final decision cascade.
`0.2 = 1/5`, `0.8 = 4/5`, `0.5 = 1/2`, `0.7 = 7/10` as rationals. -/
def classifySport (pose : Pose) : Option String :=
  match getKeypoint pose "left_hip", getKeypoint pose "right_hip",
        getKeypoint pose "left_knee", getKeypoint pose "right_knee" with
  | some leftHip, some rightHip, some leftKnee, some rightKnee =>
    if leftHip.score < 1/5 ∨ rightHip.score < 1/5 ∨
        leftKnee.score < 1/5 ∨ rightKnee.score < 1/5 then
      none
    else
      let leftAnkle := getKeypoint pose "left_ankle"
      let rightAnkle := getKeypoint pose "right_ankle"
      let leftShoulder := getKeypoint pose "left_shoulder"
      let rightShoulder := getKeypoint pose "right_shoulder"
      let avgHipY := (leftHip.y + rightHip.y) / 2
      let avgKneeY := (leftKnee.y + rightKnee.y) / 2
      let avgHipX := (leftHip.x + rightHip.x) / 2
      -- (avgShoulderY, avgShoulderX); `none` models the `null` sentinels
      let shoulderAvg : Option (ℚ × ℚ) :=
        match leftShoulder, rightShoulder with
        | some ls, some rs =>
          if ls.score > 1/5 ∧ rs.score > 1/5 then
            some ((ls.y + rs.y) / 2, (ls.x + rs.x) / 2)
          else none
        | _, _ => none
      let hipKneeVerticalDist := avgKneeY - avgHipY
      -- `some v` models `hasAnkles = true` with `ankleVariation = v`
      let anklePair : Option ℚ :=
        match leftAnkle, rightAnkle with
        | some la, some ra =>
          if la.score > 1/5 ∧ ra.score > 1/5 then some (|la.y - ra.y|) else none
        | _, _ => none
      let ankleVariation := anklePair.getD 0
      let hasAnkles := anklePair.isSome
      let kneeVariation := |leftKnee.y - rightKnee.y|
      -- (bodyLeanForward, isVeryHorizontal)
      let leanHoriz : ℚ × Bool :=
        match shoulderAvg with
        | some (avgShoulderY, avgShoulderX) =>
          let shoulderHipVertical := avgHipY - avgShoulderY
          let shoulderHipHorizontal := |avgShoulderX - avgHipX|
          (if shoulderHipVertical > 0 then shoulderHipHorizontal / shoulderHipVertical else 0,
           decide (shoulderHipHorizontal > shoulderHipVertical * (4/5)))
        | none => (0, false)
      let bodyLeanForward := leanHoriz.1
      let isVeryHorizontal := leanHoriz.2
      let cyclingScore1 : ℤ :=
        (if hipKneeVerticalDist > 50 ∧ hipKneeVerticalDist < 180 ∧ isVeryHorizontal then 4 else 0) +
        (if hasAnkles ∧ ankleVariation < 60 then 3 else 0) +
        (if kneeVariation < 50 then 2 else 0) +
        (if isVeryHorizontal ∧ bodyLeanForward > 7/10 then 4 else 0)
      let runningScore : ℤ :=
        (if hipKneeVerticalDist > 100 then 4 else 0) +
        (if hasAnkles ∧ ankleVariation > 30 then 4 else 0) +
        (if kneeVariation > 30 then 4 else 0) +
        (if shoulderAvg.isSome ∧ ¬ isVeryHorizontal then 3 else 0) +
        (if shoulderAvg.isSome ∧ bodyLeanForward < 1/2 then 2 else 0)
      let cyclingScore : ℤ :=
        if kneeVariation > 60 ∨ (hasAnkles ∧ ankleVariation > 80) then
          max 0 (cyclingScore1 - 3)
        else cyclingScore1
      if runningScore ≥ 6 then some "running"
      else if cyclingScore ≥ 7 ∧ cyclingScore > runningScore then some "cycling"
      else if runningScore > cyclingScore ∧ runningScore ≥ 4 then some "running"
      else if cyclingScore > runningScore ∧ cyclingScore ≥ 4 then some "cycling"
      else if runningScore ≥ cyclingScore then some "running"
      else none
  | _, _, _, _ => none

/-- The (cyclingScore, runningScore) pair accumulated by `classifySport`,
exposed as a function of the pose ((0, 0) when the keypoint gate fails). -/
def sportScores (pose : Pose) : ℤ × ℤ :=
  match getKeypoint pose "left_hip", getKeypoint pose "right_hip",
        getKeypoint pose "left_knee", getKeypoint pose "right_knee" with
  | some leftHip, some rightHip, some leftKnee, some rightKnee =>
    if leftHip.score < 1/5 ∨ rightHip.score < 1/5 ∨
        leftKnee.score < 1/5 ∨ rightKnee.score < 1/5 then
      (0, 0)
    else
      let leftAnkle := getKeypoint pose "left_ankle"
      let rightAnkle := getKeypoint pose "right_ankle"
      let leftShoulder := getKeypoint pose "left_shoulder"
      let rightShoulder := getKeypoint pose "right_shoulder"
      let avgHipY := (leftHip.y + rightHip.y) / 2
      let avgKneeY := (leftKnee.y + rightKnee.y) / 2
      let avgHipX := (leftHip.x + rightHip.x) / 2
      let shoulderAvg : Option (ℚ × ℚ) :=
        match leftShoulder, rightShoulder with
        | some ls, some rs =>
          if ls.score > 1/5 ∧ rs.score > 1/5 then
            some ((ls.y + rs.y) / 2, (ls.x + rs.x) / 2)
          else none
        | _, _ => none
      let hipKneeVerticalDist := avgKneeY - avgHipY
      let anklePair : Option ℚ :=
        match leftAnkle, rightAnkle with
        | some la, some ra =>
          if la.score > 1/5 ∧ ra.score > 1/5 then some (|la.y - ra.y|) else none
        | _, _ => none
      let ankleVariation := anklePair.getD 0
      let hasAnkles := anklePair.isSome
      let kneeVariation := |leftKnee.y - rightKnee.y|
      let leanHoriz : ℚ × Bool :=
        match shoulderAvg with
        | some (avgShoulderY, avgShoulderX) =>
          let shoulderHipVertical := avgHipY - avgShoulderY
          let shoulderHipHorizontal := |avgShoulderX - avgHipX|
          (if shoulderHipVertical > 0 then shoulderHipHorizontal / shoulderHipVertical else 0,
           decide (shoulderHipHorizontal > shoulderHipVertical * (4/5)))
        | none => (0, false)
      let bodyLeanForward := leanHoriz.1
      let isVeryHorizontal := leanHoriz.2
      let cyclingScore1 : ℤ :=
        (if hipKneeVerticalDist > 50 ∧ hipKneeVerticalDist < 180 ∧ isVeryHorizontal then 4 else 0) +
        (if hasAnkles ∧ ankleVariation < 60 then 3 else 0) +
        (if kneeVariation < 50 then 2 else 0) +
        (if isVeryHorizontal ∧ bodyLeanForward > 7/10 then 4 else 0)
      let runningScore : ℤ :=
        (if hipKneeVerticalDist > 100 then 4 else 0) +
        (if hasAnkles ∧ ankleVariation > 30 then 4 else 0) +
        (if kneeVariation > 30 then 4 else 0) +
        (if shoulderAvg.isSome ∧ ¬ isVeryHorizontal then 3 else 0) +
        (if shoulderAvg.isSome ∧ bodyLeanForward < 1/2 then 2 else 0)
      let cyclingScore : ℤ :=
        if kneeVariation > 60 ∨ (hasAnkles ∧ ankleVariation > 80) then
          max 0 (cyclingScore1 - 3)
        else cyclingScore1
      (cyclingScore, runningScore)
  | _, _, _, _ => (0, 0)

/-- The cycling score of a pose. -/
def cyclingScoreOf (pose : Pose) : ℤ := (sportScores pose).1

/-- The running score of a pose. -/
def runningScoreOf (pose : Pose) : ℤ := (sportScores pose).2

/-- The final decision cascade of `classifySport`, as the specification words
it: running wins at score ≥ 6; else cycling at score ≥ 7 and strictly above
running; else whichever is strictly greater with score ≥ 4; else running when
`runningScore ≥ cyclingScore`, otherwise `null`. -/
def finalDecision (runningScore cyclingScore : ℤ) : Option String :=
  if runningScore ≥ 6 then some "running"
  else if cyclingScore ≥ 7 ∧ cyclingScore > runningScore then some "cycling"
  else if runningScore > cyclingScore ∧ runningScore ≥ 4 then some "running"
  else if cyclingScore > runningScore ∧ cyclingScore ≥ 4 then some "cycling"
  else if runningScore ≥ cyclingScore then some "running"
  else none

/-- The keypoint gate of `classifySport`: left/right hip and knee all found
and none with confidence below `0.2`. -/
def passesGate (pose : Pose) : Bool :=
  match getKeypoint pose "left_hip", getKeypoint pose "right_hip",
        getKeypoint pose "left_knee", getKeypoint pose "right_knee" with
  | some lh, some rh, some lk, some rk =>
    decide (¬ (lh.score < 1/5 ∨ rh.score < 1/5 ∨ lk.score < 1/5 ∨ rk.score < 1/5))
  | _, _, _, _ => false

/-- A concrete standing pose whose four gate keypoints all have confidence
`0.9`. -/
def runnerPose : Pose :=
  ⟨[⟨"left_hip", 0, 0, 9/10⟩, ⟨"right_hip", 10, 0, 9/10⟩,
    ⟨"left_knee", 0, 150, 9/10⟩, ⟨"right_knee", 100, 150, 9/10⟩], 1⟩

/-- A concrete pose whose four gate keypoints all have confidence exactly
`0.2` (the gate boundary). -/
def boundaryPose : Pose :=
  ⟨[⟨"left_hip", 0, 0, 1/5⟩, ⟨"right_hip", 10, 0, 1/5⟩,
    ⟨"left_knee", 0, 150, 1/5⟩, ⟨"right_knee", 100, 150, 1/5⟩], 1⟩

/-- A concrete pose whose left hip has confidence `0.1`, failing the gate. -/
def lowConfidencePose : Pose :=
  ⟨[⟨"left_hip", 0, 0, 1/10⟩, ⟨"right_hip", 10, 0, 9/10⟩,
    ⟨"left_knee", 0, 150, 9/10⟩, ⟨"right_knee", 100, 150, 9/10⟩], 1⟩

end SportDetection

/-- A per-frame analysis as consumed by `combineAnalyses` and
`calculateDetailedMetrics`: an `angles` dictionary plus the analysis object's
remaining fields (`rest`), modelling the generic
`T extends { angles: AngleData }`. -/
structure WithAngles (α : Type _) where
  angles : List (String × ℚ)
  rest : α
  deriving DecidableEq

namespace Helpers

/-- The angle keys occurring in a sequence of analyses, in first-appearance
order (the keys of the `avgAngles` accumulator of `combineAnalyses`). -/
def angleKeys {α : Type _} (analyses : List (WithAngles α)) : List String :=
  (analyses.map (fun a => a.angles.map Prod.fst)).flatten.dedup

/-- The values of one angle key over exactly the frames where it is present
(absent values contribute neither to `avgAngles[key]` nor to
`counts[key]`). -/
def keyValues {α : Type _} (analyses : List (WithAngles α)) (key : String) : List ℚ :=
  analyses.filterMap (fun a => alookup a.angles key)

/-- `combineAnalyses(analyses)` from `analysisHelpers.ts`: throws on an empty
input; otherwise returns the last analysis with `angles` replaced by the
per-key rounded averages, each key averaged over the frames where it was
present. -/
def combineAnalyses {α : Type _} (analyses : List (WithAngles α)) :
    Except String (WithAngles α) :=
  match analyses.getLast? with
  | none => .error "No analyses to combine"
  | some last =>
    .ok { last with
      angles := (angleKeys analyses).map (fun key =>
        (key, ((round ((keyValues analyses key).sum / (keyValues analyses key).length) : ℤ) :
          ℚ))) }

/-- A concrete two-frame input for `combineAnalyses`: `knee` present in both
frames, `hip` only in the second. -/
def combineInput : List (WithAngles String) :=
  [⟨[("knee", 100)], "first"⟩, ⟨[("knee", 110), ("hip", 50)], "second"⟩]

end Helpers

/-- One entry of the dictionary returned by `calculateDetailedMetrics`. -/
structure MetricEntry where
  min : ℤ
  max : ℤ
  avg : ℤ
  stdDev : ℝ
  range : ℤ
  consistency : ℤ
  values : List ℤ

/-- One entry of the dictionary returned by `calculateAsymmetry`. -/
structure AsymEntry where
  left : ℚ
  right : ℚ
  difference : ℚ
  percentDiff : ℚ
  status : String
  deriving DecidableEq

/-- A per-frame analysis as consumed by `calculateAsymmetry`: the
`sides.left` / `sides.right` dictionaries.  A missing `sides` object or a
missing side is modelled by the empty dictionary, over which the source's
iteration does nothing. -/
structure SideFrame where
  left : List (String × ℚ)
  right : List (String × ℚ)

namespace Metrics

/-- `calculateConsistency(stdDev, avg)`: `0` when `avg` is zero, otherwise a
0-100 score derived from the coefficient of variation. -/
noncomputable def calculateConsistency (stdDev avg : ℝ) : ℤ :=
  if avg = 0 then 0
  else
    let coefficientOfVariation := stdDev / avg * 100
    if coefficientOfVariation < 5 then round (100 - coefficientOfVariation * 2)
    else if coefficientOfVariation < 10 then round (90 - (coefficientOfVariation - 5) * 3)
    else if coefficientOfVariation < 15 then round (75 - (coefficientOfVariation - 10) * 3)
    else max 0 (round (60 - (coefficientOfVariation - 15) * 2))

/-- The metrics entry built by `calculateDetailedMetrics` for one angle key
from its per-frame value list (always applied to a non-empty list thanks to
the `values.length > 0` guard; the `0` fallbacks of `minV`/`maxV` are never
reached): min/max/avg/stdDev/range/consistency plus the rounded values. -/
noncomputable def mkMetricEntry (values : List ℚ) : MetricEntry :=
  let minV : ℚ := match values with | [] => 0 | v :: vs => vs.foldl min v
  let maxV : ℚ := match values with | [] => 0 | v :: vs => vs.foldl max v
  let avg : ℚ := values.sum / values.length
  let variance : ℚ := (values.map (fun x => (x - avg) ^ 2)).sum / values.length
  let stdDev : ℝ := Real.sqrt (variance : ℝ)
  { min := round minV, max := round maxV, avg := round avg,
    stdDev := ((round (stdDev * 10) : ℤ) : ℝ) / 10,
    range := round (maxV - minV),
    consistency := calculateConsistency stdDev ((avg : ℚ) : ℝ),
    values := values.map (fun x => round x) }

/-- `calculateDetailedMetrics(allAnalyses)`: `null` for an empty input;
otherwise, for every angle key seen in some frame (and, per the
`values.length > 0` guard, with at least one present value), the statistics
of its present values. -/
noncomputable def calculateDetailedMetrics {α : Type _}
    (allAnalyses : List (WithAngles α)) : Option (List (String × MetricEntry)) :=
  if allAnalyses.isEmpty then none
  else
    some ((Helpers.angleKeys allAnalyses).filterMap (fun angleKey =>
      (if (Helpers.keyValues allAnalyses angleKey).isEmpty then none
       else some (mkMetricEntry (Helpers.keyValues allAnalyses angleKey))).map
        (fun e => (angleKey, e))))

/-- The `leftAngles[key]` accumulator of `calculateAsymmetry`: every value of
`key` in a `sides.left` dictionary, over all frames. -/
def leftValues (allAnalyses : List SideFrame) (key : String) : List ℚ :=
  (allAnalyses.map (fun a => ((a.left.filter (fun p => p.1 == key)).map Prod.snd))).flatten

/-- The `rightAngles[key]` accumulator of `calculateAsymmetry`. -/
def rightValues (allAnalyses : List SideFrame) (key : String) : List ℚ :=
  (allAnalyses.map (fun a => ((a.right.filter (fun p => p.1 == key)).map Prod.snd))).flatten

/-- `Object.keys(leftAngles)`: every key occurring in some `sides.left`
dictionary, in first-appearance order. -/
def leftKeys (allAnalyses : List SideFrame) : List String :=
  (allAnalyses.map (fun a => a.left.map Prod.fst)).flatten.dedup

/-- The asymmetry entry built for one key from the accumulated left and right
value lists. -/
def mkAsymEntry (lv rv : List ℚ) : AsymEntry :=
  let leftAvg := lv.sum / lv.length
  let rightAvg := rv.sum / rv.length
  let difference := |leftAvg - rightAvg|
  let percentDiff := difference / ((leftAvg + rightAvg) / 2) * 100
  { left := (round leftAvg : ℤ), right := (round rightAvg : ℤ),
    difference := (round difference : ℤ),
    percentDiff := ((round (percentDiff * 10) : ℤ) : ℚ) / 10,
    status := if percentDiff < 5 then "balanced"
      else if percentDiff < 10 then "minor" else "significant" }

/-- `calculateAsymmetry(allAnalyses)`: `null` on an empty input; otherwise an
entry for every key of `leftAngles` that also has right-side data
(`rightAngles[key]` is defined exactly when at least one right value was
pushed); `null` when no entry results. -/
def calculateAsymmetry (allAnalyses : List SideFrame) :
    Option (List (String × AsymEntry)) :=
  if allAnalyses.isEmpty then none
  else
    let asymmetry := (leftKeys allAnalyses).filterMap (fun key =>
      (if (rightValues allAnalyses key).isEmpty then none
       else some (mkAsymEntry (leftValues allAnalyses key)
          (rightValues allAnalyses key))).map (fun e => (key, e)))
    if asymmetry.isEmpty then none else some asymmetry

/-- A concrete single-frame input for `calculateDetailedMetrics` whose only
angle value is `0`. -/
def zeroFrame : WithAngles Unit := ⟨[("knee", 0)], ()⟩

/-- A concrete two-frame input for `calculateAsymmetry`: left values
`[100, 101]` and right values `[100]` for the key `hipAngle`. -/
def asymInput : List SideFrame :=
  [⟨[("hipAngle", 100)], [("hipAngle", 100)]⟩, ⟨[("hipAngle", 101)], []⟩]

end Metrics

/-- A pose keypoint as consumed by the angle analyzers (`poseDetection.ts`
and `runningAnalysis.js`): real coordinates plus confidence.  Synthetic
reference points created by the analyzers carry an empty name and zero
score. -/
structure Keypoint where
  name : String
  x : ℝ
  y : ℝ
  score : ℝ

/-- `Math.atan2(y, x)`: the argument of the complex number `x + y*i`, valued
in `(-π, π]`. -/
noncomputable def atan2 (y x : ℝ) : ℝ := Complex.arg ⟨x, y⟩

/-- `calculateAngle(pointA, pointB, pointC)` from `poseDetection.ts`: the
angle at vertex `B` between the rays towards `A` and `C`, computed as the
`atan2` difference in degrees, reflected into `[0, 180]`. -/
noncomputable def calculateAngle (pointA pointB pointC : Keypoint) : ℝ :=
  let radians := atan2 (pointC.y - pointB.y) (pointC.x - pointB.x) -
    atan2 (pointA.y - pointB.y) (pointA.x - pointB.x)
  let angle := |radians * 180 / Real.pi|
  if angle > 180 then 360 - angle else angle

/-- The vector from keypoint `B` to keypoint `P`, as a complex number. -/
def vecC (P B : Keypoint) : ℂ := ⟨P.x - B.x, P.y - B.y⟩

/-- A pose as consumed by the analyzers.  The `keypoints` collection is
optional, modelling the `!pose.keypoints` guard; the whole-pose confidence
`score` is used by the running analyzer. -/
structure Pose where
  keypoints : Option (List Keypoint)
  score : ℝ

namespace BikeFit

/-- `getKeypoint(pose, name)` from `poseDetection.ts`, applied to the
keypoint collection. -/
def getKeypoint (kps : List Keypoint) (name : String) : Option Keypoint :=
  kps.find? (fun kp => kp.name == name)

/-- The result type of `analyzeBikeFit`. -/
structure BikeFitAnalysis where
  angles : List (String × ℚ)
  recommendations : List Recommendation
  overall : String

/-- The knee-angle block of `analyzeBikeFit` (hip-knee-ankle at confidence
`> 0.3`): the `angles.knee` entry and the saddle-height recommendation. -/
noncomputable def kneeBlock (hip knee ankle : Option Keypoint) :
    List (String × ℚ) × List Recommendation :=
  match hip, knee, ankle with
  | some h, some k, some a =>
    if h.score > 3/10 ∧ k.score > 3/10 ∧ a.score > 3/10 then
      let kneeAngle := calculateAngle h k a
      let rounded : ℚ := ((round kneeAngle : ℤ) : ℚ)
      ([("knee", rounded)],
       if kneeAngle > 170 then
         [⟨"warning", "Saddle Height", "Saddle may be too high - knee is too straight",
           some rounded⟩]
       else if kneeAngle < 90 then
         [⟨"warning", "Saddle Height", "Saddle may be too low - knee is too bent",
           some rounded⟩]
       else if 140 ≤ kneeAngle ∧ kneeAngle ≤ 160 then
         [⟨"success", "Saddle Height", "Good knee extension", some rounded⟩]
       else [])
    else ([], [])
  | _, _, _ => ([], [])

/-- The hip-angle block of `analyzeBikeFit` (shoulder-hip-knee at confidence
`> 0.3`). -/
noncomputable def hipBlock (shoulder hip knee : Option Keypoint) :
    List (String × ℚ) × List Recommendation :=
  match shoulder, hip, knee with
  | some s, some h, some k =>
    if s.score > 3/10 ∧ h.score > 3/10 ∧ k.score > 3/10 then
      let hipAngle := calculateAngle s h k
      let rounded : ℚ := ((round hipAngle : ℤ) : ℚ)
      ([("hip", rounded)],
       if hipAngle < 40 then
         [⟨"warning", "Hip Angle",
           "Hip angle too closed - may need to raise handlebars or adjust saddle",
           some rounded⟩]
       else if 40 ≤ hipAngle ∧ hipAngle ≤ 70 then
         [⟨"success", "Hip Angle", "Good hip angle for power transfer", some rounded⟩]
       else [])
    else ([], [])
  | _, _, _ => ([], [])

/-- The back-angle block of `analyzeBikeFit` (vertical reference point 100
units above the shoulder, then shoulder-hip, at confidence `> 0.3`). -/
noncomputable def backBlock (shoulder hip : Option Keypoint) :
    List (String × ℚ) × List Recommendation :=
  match shoulder, hip with
  | some s, some h =>
    if s.score > 3/10 ∧ h.score > 3/10 then
      let verticalPoint : Keypoint := ⟨"", s.x, s.y - 100, 0⟩
      let backAngle := calculateAngle verticalPoint s h
      let rounded : ℚ := ((round backAngle : ℤ) : ℚ)
      ([("back", rounded)],
       if backAngle < 30 then
         [⟨"info", "Back Angle", "Very upright position - good for comfort", some rounded⟩]
       else if 35 ≤ backAngle ∧ backAngle ≤ 50 then
         [⟨"success", "Back Angle", "Good aerodynamic position", some rounded⟩]
       else if backAngle > 60 then
         [⟨"warning", "Back Angle",
           "Very aggressive position - ensure flexibility and comfort", some rounded⟩]
       else [])
    else ([], [])
  | _, _ => ([], [])

/-- The elbow-angle block of `analyzeBikeFit` (shoulder-elbow-wrist at
confidence `> 0.3`). -/
noncomputable def elbowBlock (shoulder elbow wrist : Option Keypoint) :
    List (String × ℚ) × List Recommendation :=
  match shoulder, elbow, wrist with
  | some s, some e, some w =>
    if s.score > 3/10 ∧ e.score > 3/10 ∧ w.score > 3/10 then
      let elbowAngle := calculateAngle s e w
      let rounded : ℚ := ((round elbowAngle : ℤ) : ℚ)
      ([("elbow", rounded)],
       if elbowAngle > 170 then
         [⟨"warning", "Elbow Position",
           "Arms too straight - add slight bend for comfort and shock absorption",
           some rounded⟩]
       else if 140 ≤ elbowAngle ∧ elbowAngle ≤ 170 then
         [⟨"success", "Elbow Position", "Good arm position with slight bend", some rounded⟩]
       else [])
    else ([], [])
  | _, _, _ => ([], [])

/-- The body of `analyzeBikeFit` after its null guard: chooses the side with
the higher knee confidence (strict comparison, left only when strictly
higher), runs the four angle blocks, and derives the overall rating. -/
noncomputable def analyzeBikeFitBody (kps : List Keypoint) : BikeFitAnalysis :=
  let leftShoulder := getKeypoint kps "left_shoulder"
  let rightShoulder := getKeypoint kps "right_shoulder"
  let leftHip := getKeypoint kps "left_hip"
  let rightHip := getKeypoint kps "right_hip"
  let leftKnee := getKeypoint kps "left_knee"
  let rightKnee := getKeypoint kps "right_knee"
  let leftAnkle := getKeypoint kps "left_ankle"
  let rightAnkle := getKeypoint kps "right_ankle"
  let leftElbow := getKeypoint kps "left_elbow"
  let rightElbow := getKeypoint kps "right_elbow"
  let leftWrist := getKeypoint kps "left_wrist"
  let rightWrist := getKeypoint kps "right_wrist"
  let useLeftSide :=
    ((leftKnee.map Keypoint.score).getD 0) > ((rightKnee.map Keypoint.score).getD 0)
  let shoulder := if useLeftSide then leftShoulder else rightShoulder
  let hip := if useLeftSide then leftHip else rightHip
  let knee := if useLeftSide then leftKnee else rightKnee
  let ankle := if useLeftSide then leftAnkle else rightAnkle
  let elbow := if useLeftSide then leftElbow else rightElbow
  let wrist := if useLeftSide then leftWrist else rightWrist
  let kneeB := kneeBlock hip knee ankle
  let hipB := hipBlock shoulder hip knee
  let backB := backBlock shoulder hip
  let elbowB := elbowBlock shoulder elbow wrist
  let angles := kneeB.1 ++ hipB.1 ++ backB.1 ++ elbowB.1
  let recommendations := kneeB.2 ++ hipB.2 ++ backB.2 ++ elbowB.2
  let warningCount := (recommendations.filter (fun r => r.type == "warning")).length
  let successCount := (recommendations.filter (fun r => r.type == "success")).length
  let overall :=
    if warningCount = 0 ∧ successCount ≥ 2 then "excellent"
    else if warningCount ≤ 1 then "good"
    else "needs-adjustment"
  ⟨angles, recommendations, overall⟩

/-- `analyzeBikeFit(pose)` from `poseDetection.ts`: `null` exactly for a
`null` pose or one without a keypoints collection. -/
noncomputable def analyzeBikeFit (pose : Option Pose) : Option BikeFitAnalysis :=
  match pose with
  | none => none
  | some p =>
    match p.keypoints with
    | none => none
    | some kps => some (analyzeBikeFitBody kps)

end BikeFit

namespace RunningForm

/-- `getKeypoint(pose, name)` from `runningAnalysis.js`. -/
def getKeypoint (kps : List Keypoint) (name : String) : Option Keypoint :=
  kps.find? (fun kp => kp.name == name)

/-- The result type of `analyzeRunningForm`; `sidesLeft` / `sidesRight` model
the `sides.left` and `sides.right` dictionaries. -/
structure RunningFormAnalysis where
  angles : List (String × ℚ)
  recommendations : List Recommendation
  confidence : ℝ
  sidesLeft : List (String × ℚ)
  sidesRight : List (String × ℚ)
  overall : String

/-- One side's leg analysis: `kneeAngle` (hip-knee-ankle, when the ankle is
also confident) and `hipAngle` (shoulder-hip-knee) at confidence `> 0.3`. -/
noncomputable def legSide (shoulder hip knee ankle : Option Keypoint) :
    List (String × ℚ) :=
  match shoulder, hip, knee with
  | some s, some h, some k =>
    if s.score > 3/10 ∧ h.score > 3/10 ∧ k.score > 3/10 then
      (match ankle with
       | some a =>
         if a.score > 3/10 then
           [("kneeAngle", ((round (calculateAngle h k a) : ℤ) : ℚ))]
         else []
       | none => []) ++
      [("hipAngle", ((round (calculateAngle s h k) : ℤ) : ℚ))]
    else []
  | _, _, _ => []

/-- One side's arm analysis: `armAngle` (shoulder-elbow-wrist) at confidence
`> 0.3`. -/
noncomputable def armSide (shoulder elbow wrist : Option Keypoint) :
    List (String × ℚ) :=
  match shoulder, elbow, wrist with
  | some s, some e, some w =>
    if s.score > 3/10 ∧ e.score > 3/10 ∧ w.score > 3/10 then
      [("armAngle", ((round (calculateAngle s e w) : ℤ) : ℚ))]
    else []
  | _, _, _ => []

/-- A side value used in an average only when present and truthy (JS
truthiness: the value `0` is skipped by `if (results.sides.left.kneeAngle)`;
an absent property contributes nothing). -/
def truthyVal (v : Option ℚ) : List ℚ :=
  match v with
  | some x => if x = 0 then [] else [x]
  | none => []

/-- The posture (body-lean) block: averaged shoulder and hip midpoints
against a vertical reference, all four keypoints at confidence `> 0.3`. -/
noncomputable def postureBlock (ls rs lh rh : Option Keypoint) :
    List (String × ℚ) × List Recommendation :=
  match ls, rs, lh, rh with
  | some a, some b, some c, some d =>
    if a.score > 3/10 ∧ b.score > 3/10 ∧ c.score > 3/10 ∧ d.score > 3/10 then
      let avgShoulder : Keypoint := ⟨"", (a.x + b.x) / 2, (a.y + b.y) / 2, 0⟩
      let avgHip : Keypoint := ⟨"", (c.x + d.x) / 2, (c.y + d.y) / 2, 0⟩
      let verticalPoint : Keypoint := ⟨"", avgShoulder.x, avgShoulder.y - 100, 0⟩
      let bodyLean := calculateAngle verticalPoint avgShoulder avgHip
      let rounded : ℚ := ((round bodyLean : ℤ) : ℚ)
      ([("bodyLean", rounded)],
       if bodyLean < 3 then
         [⟨"warning", "Posture",
           "Too upright - lean slightly forward from ankles for better momentum",
           some rounded⟩]
       else if 5 ≤ bodyLean ∧ bodyLean ≤ 12 then
         [⟨"success", "Posture", "Good forward lean for efficient running", some rounded⟩]
       else if bodyLean > 15 then
         [⟨"warning", "Posture",
           "Leaning too far forward - may cause lower back strain", some rounded⟩]
       else [])
    else ([], [])
  | _, _, _, _ => ([], [])

/-- The knee-lift block: the rounded average of the truthy per-side knee
angles. -/
def kneeLiftBlock (sidesLeft sidesRight : List (String × ℚ)) :
    List (String × ℚ) × List Recommendation :=
  let kneeAngles :=
    truthyVal (alookup sidesLeft "kneeAngle") ++ truthyVal (alookup sidesRight "kneeAngle")
  if kneeAngles.isEmpty then ([], [])
  else
    let avgKneeAngle : ℚ := ((round (kneeAngles.sum / (kneeAngles.length : ℚ)) : ℤ) : ℚ)
    ([("kneeLift", avgKneeAngle)],
     if avgKneeAngle > 160 then
       [⟨"warning", "Knee Lift",
         "Insufficient knee lift - increase leg drive for better efficiency",
         some avgKneeAngle⟩]
     else if 100 ≤ avgKneeAngle ∧ avgKneeAngle ≤ 140 then
       [⟨"success", "Knee Lift", "Good knee drive and leg turnover", some avgKneeAngle⟩]
     else [])

/-- The hip-extension block: the rounded average of the truthy per-side hip
angles. -/
def hipExtensionBlock (sidesLeft sidesRight : List (String × ℚ)) :
    List (String × ℚ) × List Recommendation :=
  let hipAngles :=
    truthyVal (alookup sidesLeft "hipAngle") ++ truthyVal (alookup sidesRight "hipAngle")
  if hipAngles.isEmpty then ([], [])
  else
    let avgHipAngle : ℚ := ((round (hipAngles.sum / (hipAngles.length : ℚ)) : ℤ) : ℚ)
    ([("hipExtension", avgHipAngle)],
     if avgHipAngle < 140 then
       [⟨"warning", "Hip Extension",
         "Limited hip extension - focus on pushing through stride", some avgHipAngle⟩]
     else if avgHipAngle ≥ 160 then
       [⟨"success", "Hip Extension",
         "Excellent hip extension and power generation", some avgHipAngle⟩]
     else [])

/-- The arm-swing block: analysed only when at least one arm was measured
(`armSwingAnalyzed`), then averaging the truthy per-side arm angles. -/
def armSwingBlock (leftArm rightArm : List (String × ℚ)) :
    List (String × ℚ) × List Recommendation :=
  let armSwingAnalyzed := ¬ leftArm.isEmpty ∨ ¬ rightArm.isEmpty
  if armSwingAnalyzed then
    let armAngles :=
      truthyVal (alookup leftArm "armAngle") ++ truthyVal (alookup rightArm "armAngle")
    if armAngles.isEmpty then ([], [])
    else
      let avgArmAngle : ℚ := ((round (armAngles.sum / (armAngles.length : ℚ)) : ℤ) : ℚ)
      ([("armSwing", avgArmAngle)],
       if avgArmAngle > 120 then
         [⟨"info", "Arm Swing",
           "Arms too straight - bend elbows to ~90 degrees for better rhythm",
           some avgArmAngle⟩]
       else if 80 ≤ avgArmAngle ∧ avgArmAngle ≤ 110 then
         [⟨"success", "Arm Swing", "Good arm angle for efficient running", some avgArmAngle⟩]
       else if avgArmAngle < 70 then
         [⟨"info", "Arm Swing", "Elbows too bent - relax arms slightly", some avgArmAngle⟩]
       else [])
  else ([], [])

/-- The foot-strike block (left knee and ankle at confidence `> 0.3`); its
recommendations carry no `angle` property. -/
noncomputable def footStrikeBlock (leftKnee leftAnkle : Option Keypoint) :
    List Recommendation :=
  match leftKnee, leftAnkle with
  | some k, some a =>
    if k.score > 3/10 ∧ a.score > 3/10 then
      let footStrikeOffset := a.x - k.x
      if |footStrikeOffset| < 30 then
        [⟨"success", "Foot Strike", "Good foot landing position under center of mass", none⟩]
      else if footStrikeOffset > 30 then
        [⟨"warning", "Foot Strike", "Possible overstriding - land with foot closer to body",
          none⟩]
      else []
    else []
  | _, _ => []

/-- The body of `analyzeRunningForm` after its null guard. -/
noncomputable def analyzeRunningFormBody (kps : List Keypoint) (score : ℝ) :
    RunningFormAnalysis :=
  let leftShoulder := getKeypoint kps "left_shoulder"
  let rightShoulder := getKeypoint kps "right_shoulder"
  let leftHip := getKeypoint kps "left_hip"
  let rightHip := getKeypoint kps "right_hip"
  let leftKnee := getKeypoint kps "left_knee"
  let rightKnee := getKeypoint kps "right_knee"
  let leftAnkle := getKeypoint kps "left_ankle"
  let rightAnkle := getKeypoint kps "right_ankle"
  let leftElbow := getKeypoint kps "left_elbow"
  let rightElbow := getKeypoint kps "right_elbow"
  let leftWrist := getKeypoint kps "left_wrist"
  let rightWrist := getKeypoint kps "right_wrist"
  let sidesLeftLeg := legSide leftShoulder leftHip leftKnee leftAnkle
  let sidesRightLeg := legSide rightShoulder rightHip rightKnee rightAnkle
  let posture := postureBlock leftShoulder rightShoulder leftHip rightHip
  let kneeLift := kneeLiftBlock sidesLeftLeg sidesRightLeg
  let hipExt := hipExtensionBlock sidesLeftLeg sidesRightLeg
  let leftArm := armSide leftShoulder leftElbow leftWrist
  let rightArm := armSide rightShoulder rightElbow rightWrist
  let armSwing := armSwingBlock leftArm rightArm
  let footStrike := footStrikeBlock leftKnee leftAnkle
  let angles := posture.1 ++ kneeLift.1 ++ hipExt.1 ++ armSwing.1
  let recommendations := posture.2 ++ kneeLift.2 ++ hipExt.2 ++ armSwing.2 ++ footStrike
  let warningCount := (recommendations.filter (fun r => r.type == "warning")).length
  let successCount := (recommendations.filter (fun r => r.type == "success")).length
  let overall :=
    if warningCount = 0 ∧ successCount ≥ 3 then "excellent"
    else if warningCount ≤ 1 then "good"
    else "needs-improvement"
  ⟨angles, recommendations, score, sidesLeftLeg ++ leftArm, sidesRightLeg ++ rightArm,
   overall⟩

/-- `analyzeRunningForm(pose)` from `runningAnalysis.js`: `null` exactly for
a `null` pose or one without a keypoints collection. -/
noncomputable def analyzeRunningForm (pose : Option Pose) : Option RunningFormAnalysis :=
  match pose with
  | none => none
  | some p =>
    match p.keypoints with
    | none => none
    | some kps => some (analyzeRunningFormBody kps p.score)

end RunningForm

section Theorems

theorem alookup_isSome_iff {β : Type _} (l : List (String × β)) (k : String) :
    (alookup l k).isSome = true ↔ k ∈ l.map Prod.fst := by
  induction l with
  | nil => simp [alookup]
  | cons p rest ih =>
    obtain ⟨k0, v⟩ := p
    by_cases h : k0 = k
    · subst h; simp [alookup]
    · simp [alookup, h, ih, Ne.symm h]

/-- Looking up a key in an association list obtained by tabulating an
`Option`-valued function over a key list. -/
theorem alookup_tabulate {β : Type _} (keys : List String) (g : String → Option β)
    (k : String) :
    alookup (keys.filterMap (fun k0 => (g k0).map (fun v => (k0, v)))) k =
      if k ∈ keys then g k else none := by
  induction keys with
  | nil => simp [alookup]
  | cons k0 rest ih =>
    cases hg : g k0 with
    | none =>
      by_cases hk : k0 = k
      · subst hk; simp [List.filterMap_cons, hg, ih]
      · simp [List.filterMap_cons, hg, ih, hk, Ne.symm hk]
    | some v =>
      by_cases hk : k0 = k
      · subst hk; simp [List.filterMap_cons, hg, alookup]
      · simp [List.filterMap_cons, hg, alookup, hk, Ne.symm hk, ih]

/-- A list sorted with the descending-priority comparator is pairwise
descending in `priorityScore`. -/
theorem mergeSort_byPriorityDesc_pairwise (l : List EnhancedRecommendation) :
    (l.mergeSort Enhance.byPriorityDesc).Pairwise
      (fun a b => b.priorityScore ≤ a.priorityScore) := by
  have h := @List.sorted_mergeSort EnhancedRecommendation Enhance.byPriorityDesc
    (fun a b c hab hbc => by
      simp only [Enhance.byPriorityDesc, decide_eq_true_eq] at hab hbc ⊢
      exact le_trans hbc hab)
    (fun a b => by
      simp only [Enhance.byPriorityDesc, Bool.or_eq_true, decide_eq_true_eq]
      exact le_total b.priorityScore a.priorityScore)
    l
  exact h.imp (fun hab => by
    simpa [Enhance.byPriorityDesc, decide_eq_true_eq] using hab)

/-- C2: `calculateSeverity` returns `"minor"` for every value inside the
optimal range (including a zero-width range with the value on it); for a value
outside a positive-width range it returns `"critical"` when the deviation
percentage `|value - nearestBound| / (optimalMax - optimalMin) * 100` is at
least the critical threshold, `"moderate"` when it is at least the moderate
threshold but below the critical one, and `"minor"` otherwise.  The thresholds
default to 20 and 10. -/
theorem calculateSeverity_spec (v mn mx cp mp : ℚ) :
    (mn ≤ v → v ≤ mx → Enhance.calculateSeverity v mn mx cp mp = "minor") ∧
    (¬ (mn ≤ v ∧ v ≤ mx) → mn < mx →
      Enhance.calculateSeverity v mn mx cp mp =
        (let d := (if v < mn then |v - mn| else |v - mx|) / (mx - mn) * 100
         if cp ≤ d then "critical" else if mp ≤ d then "moderate" else "minor")) := by
  constructor
  · intro h1 h2
    simp [Enhance.calculateSeverity, Enhance.SEVERITY_MINOR, h1, h2]
  · intro hout hlt
    simp only [Enhance.calculateSeverity, Enhance.SEVERITY_MINOR, Enhance.SEVERITY_MODERATE,
      Enhance.SEVERITY_CRITICAL, if_neg hout]
    rcases not_and_or.mp hout with hlo | hhi
    · have hv : v < mn := lt_of_not_le hlo
      have habs : |v - mn| = mn - v := by
        rw [abs_of_nonpos (by linarith)]; ring
      simp [hv, habs]
    · have hv : mx < v := lt_of_not_le hhi
      have hv' : ¬ v < mn := not_lt.mpr (le_of_lt (lt_trans hlt hv))
      have habs : |v - mx| = v - mx := abs_of_nonneg (by linarith)
      simp [hv', habs]

/-- Witness for C2 at the concrete inputs listed in the specification:
`calculateSeverity 150 140 160 = minor`, `calculateSeverity 100 140 160 =
critical` (200% deviation), `calculateSeverity 137 140 160 = moderate`
(15% deviation) and `calculateSeverity 150 150 150 = minor` (zero-width
range with the value on it). -/
theorem calculateSeverity_spec_witness :
    Enhance.calculateSeverity 150 140 160 20 10 = "minor" ∧
    Enhance.calculateSeverity 100 140 160 20 10 = "critical" ∧
    Enhance.calculateSeverity 137 140 160 20 10 = "moderate" ∧
    Enhance.calculateSeverity 150 150 150 20 10 = "minor" := by
  refine ⟨(calculateSeverity_spec 150 140 160 20 10).1 (by norm_num) (by norm_num), ?_, ?_,
    (calculateSeverity_spec 150 150 150 20 10).1 (by norm_num) (by norm_num)⟩
  · have h := (calculateSeverity_spec 100 140 160 20 10).2 (by norm_num) (by norm_num)
    rw [h]; norm_num
  · have h := (calculateSeverity_spec 137 140 160 20 10).2 (by norm_num) (by norm_num)
    rw [h]; norm_num

/-- C8: for every input, the lists returned by
`enhanceBikeFitRecommendations` and `enhanceRunningRecommendations` are sorted
in descending order of `priorityScore`; both functions return `[]` when the
analysis argument is `null` or lacks a `recommendations` field; and
`getSeverityScore` maps critical to 3, moderate to 2, minor to 1 and anything
else to 0. -/
theorem enhancedRecommendations_sorted_spec :
    (∀ x, (Enhance.enhanceBikeFitRecommendations x).Pairwise
        (fun a b => b.priorityScore ≤ a.priorityScore) ∧
      (Enhance.enhanceRunningRecommendations x).Pairwise
        (fun a b => b.priorityScore ≤ a.priorityScore)) ∧
    (Enhance.enhanceBikeFitRecommendations none = [] ∧
      Enhance.enhanceRunningRecommendations none = [] ∧
      Enhance.enhanceBikeFitRecommendations (some ⟨none⟩) = [] ∧
      Enhance.enhanceRunningRecommendations (some ⟨none⟩) = []) ∧
    (Enhance.getSeverityScore "critical" = 3 ∧ Enhance.getSeverityScore "moderate" = 2 ∧
      Enhance.getSeverityScore "minor" = 1 ∧
      ∀ s, s ≠ "critical" → s ≠ "moderate" → s ≠ "minor" →
        Enhance.getSeverityScore s = 0) := by
  refine ⟨?_, ⟨rfl, rfl, rfl, rfl⟩, by decide, by decide, by decide, ?_⟩
  · intro x
    constructor
    · match x with
      | none => exact List.Pairwise.nil
      | some ⟨none⟩ => exact List.Pairwise.nil
      | some ⟨some recs⟩ => exact mergeSort_byPriorityDesc_pairwise _
    · match x with
      | none => exact List.Pairwise.nil
      | some ⟨none⟩ => exact List.Pairwise.nil
      | some ⟨some recs⟩ => exact mergeSort_byPriorityDesc_pairwise _
  · intro s h1 h2 h3
    simp [Enhance.getSeverityScore, Enhance.SEVERITY_CRITICAL, Enhance.SEVERITY_MODERATE,
      Enhance.SEVERITY_MINOR, h1, h2, h3]

/-- Witness for C8: a concrete two-recommendation analysis, sortedness of its
enhanced output, and the default severity score on an unrecognized severity
name. -/
theorem enhancedRecommendations_sorted_spec_witness :
    (Enhance.enhanceBikeFitRecommendations
        (some ⟨some [⟨"warning", "Knee Angle", "m1", some 100⟩,
                     ⟨"success", "Saddle Height", "m2", some 150⟩]⟩)).Pairwise
      (fun a b => b.priorityScore ≤ a.priorityScore) ∧
    Enhance.getSeverityScore "warning" = 0 := by
  have h := enhancedRecommendations_sorted_spec
  obtain ⟨hs, -, -, -, -, hdef⟩ := h
  exact ⟨(hs _).1, hdef "warning" (by decide) (by decide) (by decide)⟩

/-- C4: for every pose passing the classifier keypoint gate, `classifySport`
returns the result of the decision cascade on the running and cycling scores:
running at `runningScore ≥ 6`; else cycling at `cyclingScore ≥ 7` strictly
above running; else whichever score is strictly greater with score ≥ 4; else
running when `runningScore ≥ cyclingScore`, otherwise `null`. -/
theorem classifySport_decision_spec (pose : SportDetection.Pose)
    (h : SportDetection.passesGate pose = true) :
    SportDetection.classifySport pose =
      SportDetection.finalDecision (SportDetection.runningScoreOf pose)
        (SportDetection.cyclingScoreOf pose) := by
  unfold SportDetection.passesGate at h
  unfold SportDetection.classifySport SportDetection.runningScoreOf
    SportDetection.cyclingScoreOf SportDetection.sportScores SportDetection.finalDecision
  cases hlh : SportDetection.getKeypoint pose "left_hip" with
  | none => rw [hlh] at h; exact Bool.noConfusion h
  | some lh =>
    cases hrh : SportDetection.getKeypoint pose "right_hip" with
    | none => rw [hlh, hrh] at h; exact Bool.noConfusion h
    | some rh =>
      cases hlk : SportDetection.getKeypoint pose "left_knee" with
      | none => rw [hlh, hrh, hlk] at h; exact Bool.noConfusion h
      | some lk =>
        cases hrk : SportDetection.getKeypoint pose "right_knee" with
        | none => rw [hlh, hrh, hlk, hrk] at h; exact Bool.noConfusion h
        | some rk =>
          rw [hlh, hrh, hlk, hrk] at h
          have h2 : ¬ (lh.score < 1/5 ∨ rh.score < 1/5 ∨
              lk.score < 1/5 ∨ rk.score < 1/5) := of_decide_eq_true h
          simp only [if_neg h2]

/-- Witness for C4: the concrete `runnerPose` passes the gate, the theorem
applies to it, and the decision there is `running`. -/
theorem classifySport_decision_spec_witness :
    SportDetection.passesGate SportDetection.runnerPose = true ∧
    SportDetection.classifySport SportDetection.runnerPose =
      SportDetection.finalDecision (SportDetection.runningScoreOf SportDetection.runnerPose)
        (SportDetection.cyclingScoreOf SportDetection.runnerPose) ∧
    SportDetection.classifySport SportDetection.runnerPose = some "running" := by
  have hgate : SportDetection.passesGate SportDetection.runnerPose = true := by
    simp only [SportDetection.passesGate, SportDetection.getKeypoint, SportDetection.runnerPose,
      List.find?_cons, String.reduceBEq, String.reduceEq, cond_false, cond_true,
      decide_eq_true_eq]
    norm_num
  refine ⟨hgate, classifySport_decision_spec SportDetection.runnerPose hgate, ?_⟩
  simp only [SportDetection.classifySport, SportDetection.getKeypoint, SportDetection.runnerPose,
    List.find?_cons, String.reduceBEq, String.reduceEq, cond_false, cond_true]
  norm_num

/-- C5 (amended): `classifySport` returns `null` whenever any of the four
gate keypoints (left/right hip, left/right knee) is missing or has confidence
strictly below `0.2`; equivalently, a non-`null` result requires all four to
be present with confidence at least `0.2` (the source gate uses `< 0.2`, so a
keypoint at exactly `0.2` passes). -/
theorem classifySport_gate_spec (pose : SportDetection.Pose)
    (h : SportDetection.passesGate pose = false) :
    SportDetection.classifySport pose = none := by
  unfold SportDetection.passesGate at h
  unfold SportDetection.classifySport
  cases hlh : SportDetection.getKeypoint pose "left_hip" with
  | none => rfl
  | some lh =>
    cases hrh : SportDetection.getKeypoint pose "right_hip" with
    | none => rfl
    | some rh =>
      cases hlk : SportDetection.getKeypoint pose "left_knee" with
      | none => rfl
      | some lk =>
        cases hrk : SportDetection.getKeypoint pose "right_knee" with
        | none => rfl
        | some rk =>
          rw [hlh, hrh, hlk, hrk] at h
          have h2 : lh.score < 1/5 ∨ rh.score < 1/5 ∨
              lk.score < 1/5 ∨ rk.score < 1/5 := not_not.mp (of_decide_eq_false h)
          simp only [if_pos h2]

/-- Witness for C5 (amended): a concrete pose whose left hip has confidence
`0.1` fails the gate and is classified as `null`. -/
theorem classifySport_gate_spec_witness :
    SportDetection.passesGate SportDetection.lowConfidencePose = false ∧
    SportDetection.classifySport SportDetection.lowConfidencePose = none := by
  have hgate : SportDetection.passesGate SportDetection.lowConfidencePose = false := by
    simp only [SportDetection.passesGate, SportDetection.getKeypoint,
      SportDetection.lowConfidencePose, List.find?_cons, String.reduceBEq, String.reduceEq,
      cond_false, cond_true, decide_eq_false_iff_not, not_not]
    norm_num
  exact ⟨hgate, classifySport_gate_spec SportDetection.lowConfidencePose hgate⟩

/-- Counterexample to C5 as stated: in `boundaryPose` every gate keypoint has
confidence exactly `0.2`, which does not exceed `0.2`, yet `classifySport`
returns `running` rather than `null` (the source gate rejects only
confidences strictly below `0.2`). -/
theorem classifySport_gate_counterexample :
    (SportDetection.getKeypoint SportDetection.boundaryPose "left_hip").map
        SportDetection.Keypoint.score = some (1/5) ∧
    ¬ ((1 : ℚ)/5 > 1/5) ∧
    SportDetection.classifySport SportDetection.boundaryPose = some "running" := by
  refine ⟨?_, by norm_num, ?_⟩
  · simp [SportDetection.getKeypoint, SportDetection.boundaryPose, List.find?_cons]
  · simp only [SportDetection.classifySport, SportDetection.getKeypoint,
      SportDetection.boundaryPose, List.find?_cons, String.reduceBEq, String.reduceEq,
      cond_false, cond_true]
    norm_num

/-- Lookup in an association list tabulating a total function. -/
theorem alookup_map_tabulate {β : Type _} (keys : List String) (f : String → β) (k : String) :
    alookup (keys.map (fun k0 => (k0, f k0))) k = if k ∈ keys then some (f k) else none := by
  induction keys with
  | nil => simp [alookup]
  | cons k0 rest ih =>
    by_cases hk : k0 = k
    · subst hk; simp [alookup]
    · simp [alookup, hk, Ne.symm hk, ih]

/-- An angle key has a present value in some frame exactly when it occurs in
the accumulated key set. -/
theorem keyValues_ne_nil_iff {α : Type _} (analyses : List (WithAngles α)) (k : String) :
    Helpers.keyValues analyses k ≠ [] ↔ k ∈ Helpers.angleKeys analyses := by
  unfold Helpers.keyValues Helpers.angleKeys
  rw [Ne, List.filterMap_eq_nil_iff]
  simp only [List.mem_dedup, List.mem_flatten, List.mem_map]
  constructor
  · intro h
    push_neg at h
    obtain ⟨a, ha, hna⟩ := h
    refine ⟨a.angles.map Prod.fst, ⟨a, ha, rfl⟩, ?_⟩
    rw [← alookup_isSome_iff]
    exact Option.isSome_iff_ne_none.mpr hna
  · rintro ⟨ks, ⟨a, ha, rfl⟩, hk⟩ hall
    rw [← alookup_isSome_iff] at hk
    rw [hall a ha] at hk
    exact Bool.noConfusion hk

/-- C3: `combineAnalyses` fails on the empty list and otherwise returns the
last analysis with every other field unchanged and `angles` replaced by a map
holding, for each key present in at least one frame, the rounded average of
the key's present values (absent values contribute to neither sum nor
divisor). -/
theorem combineAnalyses_spec {α : Type _} (analyses : List (WithAngles α)) :
    (analyses = [] → Helpers.combineAnalyses analyses = .error "No analyses to combine") ∧
    (∀ h : analyses ≠ [],
      ∃ r, Helpers.combineAnalyses analyses = .ok r ∧
        r.rest = (analyses.getLast h).rest ∧
        ∀ key, alookup r.angles key =
          (if Helpers.keyValues analyses key = [] then none
           else some ((round ((Helpers.keyValues analyses key).sum /
             ((Helpers.keyValues analyses key).length : ℚ)) : ℤ) : ℚ))) := by
  constructor
  · intro h; subst h; rfl
  · intro h
    have hL : analyses.getLast? = some (analyses.getLast h) :=
      List.getLast?_eq_getLast analyses h
    refine ⟨{ analyses.getLast h with
        angles := (Helpers.angleKeys analyses).map (fun key =>
          (key, ((round ((Helpers.keyValues analyses key).sum /
            ((Helpers.keyValues analyses key).length : ℚ)) : ℤ) : ℚ))) }, ?_, rfl, ?_⟩
    · unfold Helpers.combineAnalyses
      rw [hL]
    · intro key
      rw [alookup_map_tabulate]
      by_cases hmem : key ∈ Helpers.angleKeys analyses
      · rw [if_pos hmem, if_neg ((keyValues_ne_nil_iff analyses key).mpr hmem)]
      · rw [if_neg hmem,
          if_pos (not_ne_iff.mp (fun hne => hmem ((keyValues_ne_nil_iff analyses key).mp hne)))]

/-- Witness for C3 at a concrete two-frame input: `knee` is averaged over
both frames, `hip` over the single frame where it is present, and the rest of
the last frame is kept. -/
theorem combineAnalyses_spec_witness :
    (Helpers.combineAnalyses Helpers.combineInput).toOption.map
      (fun r => (alookup r.angles "knee", alookup r.angles "hip", r.rest)) =
      some (some 105, some 50, "second") := by
  obtain ⟨r, hok, hrest, hkeys⟩ :=
    (combineAnalyses_spec Helpers.combineInput).2 (by simp [Helpers.combineInput])
  have h1 := hkeys "knee"
  have h2 := hkeys "hip"
  have hkv1 : Helpers.keyValues Helpers.combineInput "knee" = [100, 110] := by
    simp [Helpers.keyValues, Helpers.combineInput, alookup]
  have hkv2 : Helpers.keyValues Helpers.combineInput "hip" = [50] := by
    simp [Helpers.keyValues, Helpers.combineInput, alookup]
  rw [hkv1] at h1
  rw [hkv2] at h2
  norm_num [round_eq] at h1 h2
  rw [hok]
  simp only [Except.toOption, Option.map_some']
  rw [h1, h2, hrest]
  simp [Helpers.combineInput]

/-- The dictionary returned by `calculateDetailedMetrics` on a non-empty
input holds, under each key, the metrics entry of the key's present values
(and no entry for keys without present values). -/
theorem calculateDetailedMetrics_lookup {α : Type _} (l : List (WithAngles α)) (hl : l ≠ [])
    (k : String) :
    (Metrics.calculateDetailedMetrics l).map (fun m => alookup m k) =
      some (if (Helpers.keyValues l k).isEmpty then none
        else some (Metrics.mkMetricEntry (Helpers.keyValues l k))) := by
  unfold Metrics.calculateDetailedMetrics
  rw [if_neg (by simp [List.isEmpty_iff, hl])]
  rw [Option.map_some']
  rw [alookup_tabulate]
  by_cases hmem : k ∈ Helpers.angleKeys l
  · rw [if_pos hmem]
  · rw [if_neg hmem]
    have hkv : Helpers.keyValues l k = [] :=
      not_ne_iff.mp (fun hne => hmem ((keyValues_ne_nil_iff l k).mp hne))
    rw [hkv]
    rfl

/-- The metrics entry of a one-element value list: `stdDev` is `0`,
`consistency` is `100` for a nonzero value and `0` for the value `0`. -/
theorem mkMetricEntry_single (v : ℚ) :
    Metrics.mkMetricEntry [v] =
      ⟨round v, round v, round v, 0, 0, if v = 0 then 0 else 100, [round v]⟩ := by
  unfold Metrics.mkMetricEntry Metrics.calculateConsistency
  have h1 : ([v].sum : ℚ) / (([v].length : ℕ) : ℚ) = v := by simp
  have h2 : (([v].map (fun x => (x - v) ^ 2)).sum : ℚ) / (([v].length : ℕ) : ℚ) = 0 := by
    simp
  simp only [List.foldl_nil, h1, h2]
  rw [Rat.cast_zero, Real.sqrt_zero]
  have h3 : ((round ((0 : ℝ) * 10) : ℤ) : ℝ) / 10 = 0 := by norm_num
  have h4 : (round (v - v) : ℤ) = 0 := by norm_num
  rw [h3, h4]
  by_cases hv : v = 0
  · subst hv
    simp
  · rw [if_neg (by exact_mod_cast hv), if_neg hv]
    have h5 : (0 : ℝ) / ((v : ℚ) : ℝ) * 100 = 0 := by
      rw [zero_div, zero_mul]
    rw [h5]
    norm_num [round_eq]

/-- C6 (amended): `calculateDetailedMetrics` returns `null` for an empty
input; for every single-frame input with an angle value `v` under key `k`, the
entry for `k` has `stdDev = 0`, and `consistency = 100` when `v` is nonzero
but `consistency = 0` when `v = 0` (the coefficient of variation is not
defined for a zero mean, which the source maps to the score `0`). -/
theorem calculateDetailedMetrics_spec {α : Type _} (f : WithAngles α) (k : String) (v : ℚ)
    (h : alookup f.angles k = some v) :
    Metrics.calculateDetailedMetrics ([] : List (WithAngles α)) = none ∧
    ∃ m e, Metrics.calculateDetailedMetrics [f] = some m ∧ alookup m k = some e ∧
      e.stdDev = 0 ∧ e.consistency = (if v = 0 then 0 else 100) := by
  refine ⟨rfl, ?_⟩
  have hkv : Helpers.keyValues [f] k = [v] := by simp [Helpers.keyValues, h]
  have hlook := calculateDetailedMetrics_lookup [f] (by simp) k
  rw [hkv] at hlook
  simp only [List.isEmpty_cons, Bool.false_eq_true, if_false] at hlook
  cases hm : Metrics.calculateDetailedMetrics [f] with
  | none => rw [hm] at hlook; exact absurd hlook (by simp)
  | some m =>
    rw [hm, Option.map_some', Option.some_inj] at hlook
    refine ⟨m, Metrics.mkMetricEntry [v], rfl, hlook, ?_, ?_⟩
    · rw [mkMetricEntry_single]
    · rw [mkMetricEntry_single]

/-- Witness for C6 at the single frame `{angles: {knee: 95}}`. -/
theorem calculateDetailedMetrics_spec_witness :
    Metrics.calculateDetailedMetrics ([] : List (WithAngles Unit)) = none ∧
    (Metrics.calculateDetailedMetrics [(⟨[("knee", 95)], ()⟩ : WithAngles Unit)]).map
      (fun m => (alookup m "knee").map (fun e => (e.stdDev, e.consistency))) =
      some (some (0, 100)) := by
  obtain ⟨hnil, m, e, hm, he, hstd, hcons⟩ :=
    calculateDetailedMetrics_spec (⟨[("knee", 95)], ()⟩ : WithAngles Unit) "knee" 95
      (by simp [alookup])
  refine ⟨hnil, ?_⟩
  rw [hm, Option.map_some', he, Option.map_some', hstd, hcons]
  norm_num

/-- Counterexample to C6 as stated: the single frame `{angles: {knee: 0}}`
contains an angle value, yet its `consistency` is `0`, not `100`
(`calculateConsistency` returns `0` whenever the average is `0`). -/
theorem calculateDetailedMetrics_consistency_counterexample :
    (Metrics.calculateDetailedMetrics [Metrics.zeroFrame]).map
      (fun m => (alookup m "knee").map MetricEntry.consistency) = some (some 0) ∧
    (0 : ℤ) ≠ 100 := by
  refine ⟨?_, by decide⟩
  have hkv : Helpers.keyValues [Metrics.zeroFrame] "knee" = [0] := by
    simp [Helpers.keyValues, Metrics.zeroFrame, alookup]
  have hlook := calculateDetailedMetrics_lookup [Metrics.zeroFrame] (by simp) "knee"
  rw [hkv] at hlook
  simp only [List.isEmpty_cons, Bool.false_eq_true, if_false] at hlook
  cases hm : Metrics.calculateDetailedMetrics [Metrics.zeroFrame] with
  | none => rw [hm] at hlook; exact absurd hlook (by simp)
  | some m =>
    rw [hm, Option.map_some', Option.some_inj] at hlook
    rw [Option.map_some', hlook, Option.map_some', mkMetricEntry_single]
    norm_num

/-- A key has an accumulated left-side value exactly when it occurs in the
key set of the left accumulator. -/
theorem leftValues_ne_nil_iff (l : List SideFrame) (k : String) :
    Metrics.leftValues l k ≠ [] ↔ k ∈ Metrics.leftKeys l := by
  unfold Metrics.leftValues Metrics.leftKeys
  rw [Ne, List.flatten_eq_nil_iff]
  simp only [List.mem_dedup, List.mem_flatten, List.mem_map]
  constructor
  · intro h
    push_neg at h
    obtain ⟨vl, ⟨a, ha, rfl⟩, hvl⟩ := h
    rw [Ne, List.map_eq_nil_iff, List.filter_eq_nil_iff] at hvl
    push_neg at hvl
    obtain ⟨p, hp, hpk⟩ := hvl
    refine ⟨a.left.map Prod.fst, ⟨a, ha, rfl⟩, ?_⟩
    simp only [List.mem_map]
    exact ⟨p, hp, by simpa using hpk⟩
  · rintro ⟨ks, ⟨a, ha, rfl⟩, hk⟩ hall
    simp only [List.mem_map] at hk
    obtain ⟨p, hp, rfl⟩ := hk
    have h0 := hall ((a.left.filter (fun q => q.1 == p.1)).map Prod.snd) ⟨a, ha, rfl⟩
    rw [List.map_eq_nil_iff, List.filter_eq_nil_iff] at h0
    exact absurd (by simp) (h0 p hp)

/-- C7 (amended): `calculateAsymmetry` accumulates left and right values per
key independently across all frames; for every key with data on both sides
the entry holds the rounded side averages, `difference = round |leftAvg -
rightAvg|` (the stored difference is rounded to an integer), `percentDiff`
computed from the unrounded difference and rounded to one decimal, and the
balanced/minor/significant status at the 5% and 10% thresholds; it returns
`null` for an empty input or when no key has data on both sides. -/
theorem calculateAsymmetry_spec (l : List SideFrame) :
    (l = [] → Metrics.calculateAsymmetry l = none) ∧
    ((∀ k, Metrics.leftValues l k = [] ∨ Metrics.rightValues l k = []) →
      Metrics.calculateAsymmetry l = none) ∧
    (∀ k, Metrics.leftValues l k ≠ [] → Metrics.rightValues l k ≠ [] →
      ∃ m e, Metrics.calculateAsymmetry l = some m ∧ alookup m k = some e ∧
        (let leftAvg := (Metrics.leftValues l k).sum / ((Metrics.leftValues l k).length : ℚ)
         let rightAvg := (Metrics.rightValues l k).sum / ((Metrics.rightValues l k).length : ℚ)
         let percentDiff := |leftAvg - rightAvg| / ((leftAvg + rightAvg) / 2) * 100
         e.left = ((round leftAvg : ℤ) : ℚ) ∧ e.right = ((round rightAvg : ℤ) : ℚ) ∧
         e.difference = ((round |leftAvg - rightAvg| : ℤ) : ℚ) ∧
         e.percentDiff = ((round (percentDiff * 10) : ℤ) : ℚ) / 10 ∧
         e.status = (if percentDiff < 5 then "balanced"
           else if percentDiff < 10 then "minor" else "significant"))) := by
  refine ⟨fun h => by subst h; rfl, ?_, ?_⟩
  · intro hall
    rcases eq_or_ne l [] with rfl | hl
    · rfl
    · unfold Metrics.calculateAsymmetry
      rw [if_neg (by simp [List.isEmpty_iff, hl])]
      have hasym : (Metrics.leftKeys l).filterMap (fun key =>
          (if (Metrics.rightValues l key).isEmpty then none
           else some (Metrics.mkAsymEntry (Metrics.leftValues l key)
              (Metrics.rightValues l key))).map (fun e => (key, e))) = [] := by
        rw [List.filterMap_eq_nil_iff]
        intro key hkey
        rcases hall key with hlv | hrv
        · exact absurd hlv ((leftValues_ne_nil_iff l key).mpr hkey)
        · rw [hrv]
          rfl
      rw [hasym]
      rfl
  · intro k hlv hrv
    have hl : l ≠ [] := by rintro rfl; exact hlv rfl
    have hmem : k ∈ Metrics.leftKeys l := (leftValues_ne_nil_iff l k).mp hlv
    unfold Metrics.calculateAsymmetry
    rw [if_neg (by simp [List.isEmpty_iff, hl])]
    have hlookup : alookup ((Metrics.leftKeys l).filterMap (fun key =>
        (if (Metrics.rightValues l key).isEmpty then none
         else some (Metrics.mkAsymEntry (Metrics.leftValues l key)
            (Metrics.rightValues l key))).map (fun e => (key, e)))) k =
        some (Metrics.mkAsymEntry (Metrics.leftValues l k) (Metrics.rightValues l k)) := by
      rw [alookup_tabulate, if_pos hmem,
        if_neg (by simp [List.isEmpty_iff, hrv])]
    have hne : (Metrics.leftKeys l).filterMap (fun key =>
        (if (Metrics.rightValues l key).isEmpty then none
         else some (Metrics.mkAsymEntry (Metrics.leftValues l key)
            (Metrics.rightValues l key))).map (fun e => (key, e))) ≠ [] := by
      intro h0
      rw [h0] at hlookup
      exact Option.noConfusion hlookup
    rw [if_neg (by rw [List.isEmpty_iff]; exact hne)]
    exact ⟨_, Metrics.mkAsymEntry (Metrics.leftValues l k) (Metrics.rightValues l k),
      rfl, hlookup, rfl, rfl, rfl, rfl, rfl⟩

/-- Witness for C7 at the concrete `asymInput`: left values `[100, 101]` and
right values `[100]` give a `balanced` status and rounded side averages
`101` and `100`. -/
theorem calculateAsymmetry_spec_witness :
    (Metrics.calculateAsymmetry Metrics.asymInput).map
      (fun m => (alookup m "hipAngle").map (fun e => (e.left, e.right, e.status))) =
      some (some (101, 100, "balanced")) := by
  have hlv : Metrics.leftValues Metrics.asymInput "hipAngle" = [100, 101] := by
    simp [Metrics.leftValues, Metrics.asymInput]
  have hrv : Metrics.rightValues Metrics.asymInput "hipAngle" = [100] := by
    simp [Metrics.rightValues, Metrics.asymInput]
  obtain ⟨m, e, hm, he, hle, hri, hdi, hpd, hst⟩ :=
    (calculateAsymmetry_spec Metrics.asymInput).2.2 "hipAngle"
      (by rw [hlv]; simp) (by rw [hrv]; simp)
  rw [hm, Option.map_some', he, Option.map_some']
  rw [hlv] at hle hst
  rw [hrv] at hri hst
  norm_num [round_eq, abs_of_pos] at hle hri hst
  rw [hle, hri, hst]

/-- Counterexample to C7 as stated: on `asymInput` the left average is
`100.5` and the right average `100`, so `|leftAvg - rightAvg| = 1/2`, but the
stored `difference` field is the rounded value `1`. -/
theorem calculateAsymmetry_difference_counterexample :
    (Metrics.calculateAsymmetry Metrics.asymInput).map
      (fun m => (alookup m "hipAngle").map AsymEntry.difference) = some (some 1) ∧
    |(Metrics.leftValues Metrics.asymInput "hipAngle").sum /
        ((Metrics.leftValues Metrics.asymInput "hipAngle").length : ℚ) -
      (Metrics.rightValues Metrics.asymInput "hipAngle").sum /
        ((Metrics.rightValues Metrics.asymInput "hipAngle").length : ℚ)| = 1/2 ∧
    (1 : ℚ) ≠ 1/2 := by
  have hlv : Metrics.leftValues Metrics.asymInput "hipAngle" = [100, 101] := by
    simp [Metrics.leftValues, Metrics.asymInput]
  have hrv : Metrics.rightValues Metrics.asymInput "hipAngle" = [100] := by
    simp [Metrics.rightValues, Metrics.asymInput]
  refine ⟨?_, by rw [hlv, hrv]; norm_num, by norm_num⟩
  have hmem : "hipAngle" ∈ Metrics.leftKeys Metrics.asymInput :=
    (leftValues_ne_nil_iff Metrics.asymInput "hipAngle").mp (by rw [hlv]; simp)
  unfold Metrics.calculateAsymmetry
  rw [if_neg (by simp [Metrics.asymInput])]
  have hlookup : alookup ((Metrics.leftKeys Metrics.asymInput).filterMap (fun key =>
      (if (Metrics.rightValues Metrics.asymInput key).isEmpty then none
       else some (Metrics.mkAsymEntry (Metrics.leftValues Metrics.asymInput key)
          (Metrics.rightValues Metrics.asymInput key))).map (fun e => (key, e)))) "hipAngle" =
      some (Metrics.mkAsymEntry (Metrics.leftValues Metrics.asymInput "hipAngle")
        (Metrics.rightValues Metrics.asymInput "hipAngle")) := by
    rw [alookup_tabulate, if_pos hmem, if_neg (by rw [hrv]; simp)]
  have hne : (Metrics.leftKeys Metrics.asymInput).filterMap (fun key =>
      (if (Metrics.rightValues Metrics.asymInput key).isEmpty then none
       else some (Metrics.mkAsymEntry (Metrics.leftValues Metrics.asymInput key)
          (Metrics.rightValues Metrics.asymInput key))).map (fun e => (key, e))) ≠ [] := by
    intro h0
    rw [h0] at hlookup
    exact Option.noConfusion hlookup
  rw [if_neg (by rw [List.isEmpty_iff]; exact hne)]
  rw [Option.map_some', hlookup, Option.map_some', hlv, hrv]
  norm_num [Metrics.mkAsymEntry, round_eq, abs_of_pos]

/-- `calculateAngle` rewritten through the vector arguments. -/
theorem calculateAngle_eq_arg (A B C : Keypoint) :
    calculateAngle A B C =
      (if |(Complex.arg (vecC C B) - Complex.arg (vecC A B)) * 180 / Real.pi| > 180
       then 360 - |(Complex.arg (vecC C B) - Complex.arg (vecC A B)) * 180 / Real.pi|
       else |(Complex.arg (vecC C B) - Complex.arg (vecC A B)) * 180 / Real.pi|) := rfl

/-- The difference of two complex arguments lies strictly between `-2π` and
`2π`. -/
theorem arg_sub_bounds (za zc : ℂ) :
    -(2 * Real.pi) < zc.arg - za.arg ∧ zc.arg - za.arg < 2 * Real.pi := by
  have h1 := Complex.arg_le_pi za
  have h2 := Complex.neg_pi_lt_arg za
  have h3 := Complex.arg_le_pi zc
  have h4 := Complex.neg_pi_lt_arg zc
  constructor <;> linarith

/-- Cosine of an argument difference in terms of the dot product of the two
vectors. -/
theorem cos_arg_sub (za zc : ℂ) (ha : za ≠ 0) (hc : zc ≠ 0) :
    Real.cos (zc.arg - za.arg) =
      (zc.re * za.re + zc.im * za.im) / (Complex.abs zc * Complex.abs za) := by
  rw [Real.cos_sub, Complex.cos_arg hc, Complex.cos_arg ha, Complex.sin_arg, Complex.sin_arg]
  field_simp

/-- A nonzero difference vector gives a nonzero complex number. -/
theorem vecC_ne_zero (P B : Keypoint) (h : P.x ≠ B.x ∨ P.y ≠ B.y) : vecC P B ≠ 0 := by
  simp only [vecC, Ne, Complex.ext_iff, Complex.zero_re, Complex.zero_im, not_and_or]
  rcases h with h | h
  · exact Or.inl (sub_ne_zero.mpr h)
  · exact Or.inr (sub_ne_zero.mpr h)

/-- The reflection step always lands in `[0, 180]` for an `atan2`
difference. -/
theorem reflect_mem_Icc (u : ℝ) (hb : -(2 * Real.pi) < u ∧ u < 2 * Real.pi) :
    0 ≤ (if |u * 180 / Real.pi| > 180 then 360 - |u * 180 / Real.pi|
         else |u * 180 / Real.pi|) ∧
      (if |u * 180 / Real.pi| > 180 then 360 - |u * 180 / Real.pi|
       else |u * 180 / Real.pi|) ≤ 180 := by
  have hpi := Real.pi_pos
  have habs : |u * 180 / Real.pi| = |u| * (180 / Real.pi) := by
    rw [abs_div, abs_mul, abs_of_pos hpi, abs_of_pos (by norm_num : (0:ℝ) < 180)]
    ring
  have hub : |u| < 2 * Real.pi := abs_lt.mpr ⟨by linarith [hb.1], hb.2⟩
  have hlt : |u * 180 / Real.pi| < 360 := by
    rw [habs]
    have := mul_lt_mul_of_pos_right hub (div_pos (by norm_num : (0:ℝ) < 180) hpi)
    calc |u| * (180 / Real.pi) < 2 * Real.pi * (180 / Real.pi) := this
      _ = 360 := by field_simp; ring
  have hnn : 0 ≤ |u * 180 / Real.pi| := abs_nonneg _
  by_cases hgt : |u * 180 / Real.pi| > 180
  · simp only [if_pos hgt]
    constructor <;> linarith
  · simp only [if_neg hgt]
    push_neg at hgt
    exact ⟨hnn, hgt⟩

/-- C1: for keypoints `A`, `C` distinct from the vertex `B`, `calculateAngle`
always lies in `[0, 180]`; it equals `90` whenever the rays `B→A` and `B→C`
are perpendicular (zero dot product), and `180` whenever they are colinear
and opposite (`C - B` a negative multiple of `A - B`). -/
theorem calculateAngle_spec (A B C : Keypoint)
    (hA : A.x ≠ B.x ∨ A.y ≠ B.y) (hC : C.x ≠ B.x ∨ C.y ≠ B.y) :
    (0 ≤ calculateAngle A B C ∧ calculateAngle A B C ≤ 180) ∧
    ((A.x - B.x) * (C.x - B.x) + (A.y - B.y) * (C.y - B.y) = 0 →
      calculateAngle A B C = 90) ∧
    (∀ t : ℝ, 0 < t → C.x - B.x = -(t * (A.x - B.x)) → C.y - B.y = -(t * (A.y - B.y)) →
      calculateAngle A B C = 180) := by
  have hpi := Real.pi_pos
  have hpne := Real.pi_ne_zero
  have hza : vecC A B ≠ 0 := vecC_ne_zero A B hA
  have hzc : vecC C B ≠ 0 := vecC_ne_zero C B hC
  rw [calculateAngle_eq_arg]
  set u := Complex.arg (vecC C B) - Complex.arg (vecC A B) with hu
  have hb := arg_sub_bounds (vecC A B) (vecC C B)
  rw [← hu] at hb
  refine ⟨reflect_mem_Icc u hb, ?_, ?_⟩
  · intro hdot
    have hcos : Real.cos u = 0 := by
      rw [hu, cos_arg_sub _ _ hza hzc]
      have hnum : (vecC C B).re * (vecC A B).re + (vecC C B).im * (vecC A B).im = 0 := by
        simp only [vecC]
        linear_combination hdot
      rw [hnum, zero_div]
    obtain ⟨k, hk⟩ := Real.cos_eq_zero_iff.mp hcos
    have hk1 : (-2 : ℤ) ≤ k := by
      have h4 : (-4 : ℝ) < 2 * (k : ℝ) + 1 := by
        rcases lt_or_le (-4 : ℝ) (2 * (k : ℝ) + 1) with h | h
        · exact h
        · exfalso
          have : (2 * (k : ℝ) + 1) * Real.pi / 2 ≤ -4 * Real.pi / 2 := by
            apply div_le_div_of_nonneg_right _ (by norm_num)
            exact mul_le_mul_of_nonneg_right h (le_of_lt hpi)
          rw [← hk] at this
          nlinarith [hb.1]
      have : (-4 : ℤ) < 2 * k + 1 := by exact_mod_cast h4
      omega
    have hk2 : k ≤ (1 : ℤ) := by
      have h4 : (2 * (k : ℝ) + 1) < 4 := by
        rcases lt_or_le (2 * (k : ℝ) + 1) (4 : ℝ) with h | h
        · exact h
        · exfalso
          have : (4 : ℝ) * Real.pi / 2 ≤ (2 * (k : ℝ) + 1) * Real.pi / 2 := by
            apply div_le_div_of_nonneg_right _ (by norm_num)
            exact mul_le_mul_of_nonneg_right h (le_of_lt hpi)
          rw [← hk] at this
          nlinarith [hb.2]
      have : (2 * k + 1 : ℤ) < 4 := by exact_mod_cast h4
      omega
    have hdeg : ∀ m : ℤ, ((2 * (m : ℝ) + 1) * Real.pi / 2) * 180 / Real.pi =
        (2 * m + 1) * 90 := by
      intro m
      field_simp
      ring
    rw [hk, hdeg k]
    interval_cases k <;> norm_num
  · intro t ht hx hy
    have hrel : vecC C B = ((-t : ℝ) : ℂ) * vecC A B := by
      apply Complex.ext
      · rw [Complex.re_ofReal_mul]
        simp only [vecC]
        rw [hx]; ring
      · rw [Complex.im_ofReal_mul]
        simp only [vecC]
        rw [hy]; ring
    have habspos : 0 < Complex.abs (vecC A B) := AbsoluteValue.pos _ hza
    have hcos : Real.cos u = -1 := by
      rw [hu, cos_arg_sub _ _ hza hzc, hrel]
      rw [Complex.re_ofReal_mul, Complex.im_ofReal_mul, map_mul, Complex.abs_ofReal,
        abs_neg, abs_of_pos ht]
      have hns : (vecC A B).re * (vecC A B).re + (vecC A B).im * (vecC A B).im =
          (Complex.abs (vecC A B)) ^ 2 := by
        rw [Complex.sq_abs, Complex.normSq_apply]
      have hnum : -t * (vecC A B).re * (vecC A B).re + -t * (vecC A B).im * (vecC A B).im =
          -t * (Complex.abs (vecC A B)) ^ 2 := by
        rw [← hns]; ring
      rw [hnum, show t * Complex.abs (vecC A B) * Complex.abs (vecC A B) =
        t * (Complex.abs (vecC A B)) ^ 2 from by ring]
      rw [neg_mul, neg_div, div_self (by positivity)]
    have hcos1 : Real.cos (u + Real.pi) = 1 := by
      rw [Real.cos_add_pi, hcos]; norm_num
    obtain ⟨n, hn⟩ := (Real.cos_eq_one_iff _).mp hcos1
    have hun : u = (2 * (n : ℝ) - 1) * Real.pi := by linarith [hn]
    have hn0 : (0 : ℤ) ≤ n := by
      have : -(2 * Real.pi) < (2 * (n : ℝ) - 1) * Real.pi := hun ▸ hb.1
      have h2 : (-2 : ℝ) < 2 * (n : ℝ) - 1 := by
        rcases lt_or_le (-2 : ℝ) (2 * (n : ℝ) - 1) with h | h
        · exact h
        · exfalso
          nlinarith
      have : (-2 : ℤ) < 2 * n - 1 := by exact_mod_cast h2
      omega
    have hn1 : n ≤ (1 : ℤ) := by
      have : (2 * (n : ℝ) - 1) * Real.pi < 2 * Real.pi := hun ▸ hb.2
      have h2 : 2 * (n : ℝ) - 1 < 2 := by
        rcases lt_or_le (2 * (n : ℝ) - 1) (2 : ℝ) with h | h
        · exact h
        · exfalso
          nlinarith
      have : (2 * n - 1 : ℤ) < 2 := by exact_mod_cast h2
      omega
    have hdeg : ∀ m : ℤ, ((2 * (m : ℝ) - 1) * Real.pi) * 180 / Real.pi =
        (2 * m - 1) * 180 := by
      intro m
      field_simp
      ring
    rw [hun, hdeg n]
    interval_cases n <;> norm_num

/-- Witness for C1: with `A = (1, 0)`, `B = (0, 0)`, `C = (0, 1)` the rays
are perpendicular and the angle is `90`; with `C = (-1, 0)` and `t = 1` they
are colinear opposite and the angle is `180`. -/
theorem calculateAngle_spec_witness :
    calculateAngle ⟨"", 1, 0, 1⟩ ⟨"", 0, 0, 1⟩ ⟨"", 0, 1, 1⟩ = 90 ∧
    calculateAngle ⟨"", 1, 0, 1⟩ ⟨"", 0, 0, 1⟩ ⟨"", -1, 0, 1⟩ = 180 := by
  constructor
  · exact (calculateAngle_spec ⟨"", 1, 0, 1⟩ ⟨"", 0, 0, 1⟩ ⟨"", 0, 1, 1⟩
      (by norm_num) (by norm_num)).2.1 (by norm_num)
  · exact (calculateAngle_spec ⟨"", 1, 0, 1⟩ ⟨"", 0, 0, 1⟩ ⟨"", -1, 0, 1⟩
      (by norm_num) (by norm_num)).2.2 1 (by norm_num) (by norm_num) (by norm_num)

/-- C9: `analyzeBikeFit` and `analyzeRunningForm` return `null` exactly when
the pose argument is `null` or lacks a keypoints collection; a pose with an
empty keypoints array yields a non-null analysis with zero recommendations
(and a `good` overall rating). -/
theorem analyzers_null_spec :
    (∀ x : Option Pose,
      (BikeFit.analyzeBikeFit x = none ↔ x.bind Pose.keypoints = none) ∧
      (RunningForm.analyzeRunningForm x = none ↔ x.bind Pose.keypoints = none)) ∧
    (∀ s : ℝ,
      BikeFit.analyzeBikeFit (some ⟨some ([] : List Keypoint), s⟩) =
        some ⟨[], [], "good"⟩ ∧
      RunningForm.analyzeRunningForm (some ⟨some ([] : List Keypoint), s⟩) =
        some ⟨[], [], s, [], [], "good"⟩) := by
  constructor
  · intro x
    constructor
    · rcases x with _ | ⟨kq, s⟩
      · simp [BikeFit.analyzeBikeFit]
      · rcases kq with _ | kps
        · simp [BikeFit.analyzeBikeFit]
        · simp [BikeFit.analyzeBikeFit]
    · rcases x with _ | ⟨kq, s⟩
      · simp [RunningForm.analyzeRunningForm]
      · rcases kq with _ | kps
        · simp [RunningForm.analyzeRunningForm]
        · simp [RunningForm.analyzeRunningForm]
  · intro s
    constructor
    · show some (BikeFit.analyzeBikeFitBody []) = some ⟨[], [], "good"⟩
      have hbody : BikeFit.analyzeBikeFitBody [] = ⟨[], [], "good"⟩ := by
        unfold BikeFit.analyzeBikeFitBody BikeFit.getKeypoint
        simp [BikeFit.kneeBlock, BikeFit.hipBlock, BikeFit.backBlock, BikeFit.elbowBlock,
          lt_irrefl]
      rw [hbody]
    · show some (RunningForm.analyzeRunningFormBody [] s) = some ⟨[], [], s, [], [], "good"⟩
      have hbody : RunningForm.analyzeRunningFormBody [] s = ⟨[], [], s, [], [], "good"⟩ := by
        unfold RunningForm.analyzeRunningFormBody RunningForm.getKeypoint
        simp [RunningForm.legSide, RunningForm.armSide, RunningForm.postureBlock,
          RunningForm.kneeLiftBlock, RunningForm.hipExtensionBlock,
          RunningForm.armSwingBlock, RunningForm.footStrikeBlock, RunningForm.truthyVal,
          alookup]
      rw [hbody]

/-- Every knee-block recommendation has area `Saddle Height`. -/
theorem kneeBlock_area (hip knee ankle : Option Keypoint) (r : Recommendation)
    (hr : r ∈ (BikeFit.kneeBlock hip knee ankle).2) : r.area = "Saddle Height" := by
  rcases hip with _ | h
  · simp [BikeFit.kneeBlock] at hr
  · rcases knee with _ | k
    · simp [BikeFit.kneeBlock] at hr
    · rcases ankle with _ | a
      · simp [BikeFit.kneeBlock] at hr
      · simp only [BikeFit.kneeBlock] at hr
        split_ifs at hr <;> simp_all

/-- Every hip-block recommendation has area `Hip Angle`. -/
theorem hipBlock_area (shoulder hip knee : Option Keypoint) (r : Recommendation)
    (hr : r ∈ (BikeFit.hipBlock shoulder hip knee).2) : r.area = "Hip Angle" := by
  rcases shoulder with _ | s
  · simp [BikeFit.hipBlock] at hr
  · rcases hip with _ | h
    · simp [BikeFit.hipBlock] at hr
    · rcases knee with _ | k
      · simp [BikeFit.hipBlock] at hr
      · simp only [BikeFit.hipBlock] at hr
        split_ifs at hr <;> simp_all

/-- Every back-block recommendation has area `Back Angle`. -/
theorem backBlock_area (shoulder hip : Option Keypoint) (r : Recommendation)
    (hr : r ∈ (BikeFit.backBlock shoulder hip).2) : r.area = "Back Angle" := by
  rcases shoulder with _ | s
  · simp [BikeFit.backBlock] at hr
  · rcases hip with _ | h
    · simp [BikeFit.backBlock] at hr
    · simp only [BikeFit.backBlock] at hr
      split_ifs at hr <;> simp_all

/-- Every elbow-block recommendation has area `Elbow Position`. -/
theorem elbowBlock_area (shoulder elbow wrist : Option Keypoint) (r : Recommendation)
    (hr : r ∈ (BikeFit.elbowBlock shoulder elbow wrist).2) : r.area = "Elbow Position" := by
  rcases shoulder with _ | s
  · simp [BikeFit.elbowBlock] at hr
  · rcases elbow with _ | e
    · simp [BikeFit.elbowBlock] at hr
    · rcases wrist with _ | w
      · simp [BikeFit.elbowBlock] at hr
      · simp only [BikeFit.elbowBlock] at hr
        split_ifs at hr <;> simp_all

/-- A recommendation whose area is `Saddle Height` or `Elbow Position`
matches none of the bike-fit enhancer's recognized categories, and so keeps
severity `minor`, empty drills and priority score `1`. -/
theorem enhanceBikeFitRec_unrecognized (rec : Recommendation)
    (h : rec.area = "Saddle Height" ∨ rec.area = "Elbow Position") :
    (Enhance.enhanceBikeFitRec rec).severity = "minor" ∧
    (Enhance.enhanceBikeFitRec rec).drills = [] ∧
    (Enhance.enhanceBikeFitRec rec).priorityScore = 1 := by
  rcases h with h | h <;>
    simp [Enhance.enhanceBikeFitRec, h, Enhance.SEVERITY_MINOR, Enhance.SEVERITY_CRITICAL,
      Enhance.SEVERITY_MODERATE, Enhance.getSeverityScore]

/-- C10: every recommendation emitted by `analyzeBikeFit` carries one of the
areas `Saddle Height`, `Hip Angle`, `Back Angle`, `Elbow Position`; and every
recommendation whose area is `Saddle Height` (the knee rules) or
`Elbow Position` (the elbow rules) is assigned severity `minor`, an empty
drill list and priority score `1` by `enhanceBikeFitRecommendations`,
regardless of the angle value, because those strings match none of the
enhancer's recognized categories (`Knee Angle`, `Hip Angle`, `Elbow Angle`,
`Back Angle`). -/
theorem bikeFit_unrecognized_area_spec :
    (∀ p a r, BikeFit.analyzeBikeFit p = some a → r ∈ a.recommendations →
      (r.area = "Saddle Height" ∨ r.area = "Hip Angle" ∨ r.area = "Back Angle" ∨
        r.area = "Elbow Position")) ∧
    (∀ x r, r ∈ Enhance.enhanceBikeFitRecommendations x →
      (r.area = "Saddle Height" ∨ r.area = "Elbow Position") →
      r.severity = "minor" ∧ r.drills = [] ∧ r.priorityScore = 1) := by
  constructor
  · intro p a r hpa hr
    rcases p with _ | ⟨kq, s⟩
    · exact absurd hpa (by simp [BikeFit.analyzeBikeFit])
    · rcases kq with _ | kps
      · exact absurd hpa (by simp [BikeFit.analyzeBikeFit])
      · have ha : a = BikeFit.analyzeBikeFitBody kps := by
          have h0 : BikeFit.analyzeBikeFit (some ⟨some kps, s⟩) =
              some (BikeFit.analyzeBikeFitBody kps) := rfl
          rw [h0] at hpa
          exact (Option.some_inj.mp hpa).symm
        subst ha
        simp only [BikeFit.analyzeBikeFitBody] at hr
        simp only [List.mem_append] at hr
        rcases hr with ((hr | hr) | hr) | hr
        · exact Or.inl (kneeBlock_area _ _ _ _ hr)
        · exact Or.inr (Or.inl (hipBlock_area _ _ _ _ hr))
        · exact Or.inr (Or.inr (Or.inl (backBlock_area _ _ _ hr)))
        · exact Or.inr (Or.inr (Or.inr (elbowBlock_area _ _ _ _ hr)))
  · intro x r hr harea
    rcases x with _ | ⟨recs?⟩
    · exact absurd hr (by simp [Enhance.enhanceBikeFitRecommendations])
    · rcases recs? with _ | recs
      · exact absurd hr (by simp [Enhance.enhanceBikeFitRecommendations])
      · have hr2 : r ∈ recs.map Enhance.enhanceBikeFitRec :=
          (List.mergeSort_perm (recs.map Enhance.enhanceBikeFitRec)
            Enhance.byPriorityDesc).mem_iff.mp hr
        obtain ⟨rec, hrec, rfl⟩ := List.mem_map.mp hr2
        exact enhanceBikeFitRec_unrecognized rec harea

/-- Witness for C10: the single `Saddle Height` recommendation (knee too
straight, angle 175) is enhanced to severity `minor`, empty drills and
priority score `1`. -/
theorem bikeFit_unrecognized_area_spec_witness :
    (Enhance.enhanceBikeFitRec ⟨"warning", "Saddle Height",
        "Saddle may be too high - knee is too straight", some 175⟩).severity = "minor" ∧
    (Enhance.enhanceBikeFitRec ⟨"warning", "Saddle Height",
        "Saddle may be too high - knee is too straight", some 175⟩).drills = [] ∧
    (Enhance.enhanceBikeFitRec ⟨"warning", "Saddle Height",
        "Saddle may be too high - knee is too straight", some 175⟩).priorityScore = 1 := by
  have hmem : Enhance.enhanceBikeFitRec ⟨"warning", "Saddle Height",
      "Saddle may be too high - knee is too straight", some 175⟩ ∈
      Enhance.enhanceBikeFitRecommendations (some ⟨some [⟨"warning", "Saddle Height",
        "Saddle may be too high - knee is too straight", some 175⟩]⟩) := by
    show _ ∈ ([⟨"warning", "Saddle Height",
      "Saddle may be too high - knee is too straight",
      some 175⟩].map Enhance.enhanceBikeFitRec).mergeSort Enhance.byPriorityDesc
    rw [(List.mergeSort_perm _ _).mem_iff]
    simp
  exact bikeFit_unrecognized_area_spec.2 _ _ hmem (Or.inl rfl)

end Theorems
